import Mathlib

/-!
Shallow embedding of the CHIP-8 emulator core (src/chip8_core/src/lib.rs)
and verification of the specification claims about it.

Modelling conventions:
* Machine words are `Nat` with explicit truncation where the Rust types
  wrap: `u8` arithmetic carries `% 256`, `u16` arithmetic carries `% 65536`
  where the source uses `wrapping_*` operations.
* Fixed arrays (`ram`, `screen`, `v_reg`, `stack`, `keys`) are modelled as
  total functions from `Nat`; all reads and writes the source performs at a
  possibly out-of-range index are guarded, and an out-of-range access is
  modelled as `Except.error` carrying a `Panic` value.  A `Panic` value
  models a Rust panic, i.e. the process aborting: the Rust functions return
  no error values at all (`tick` returns unit), so `.error p` means "the
  process died with panic p", not "an error result was handed to the host".
* The one source of randomness (opcode CXNN calls `rand::thread_rng`) is
  modelled by passing the random byte in as an explicit parameter `rnd`;
  theorems quantify over it.
-/

/-- The distinct Rust panic sites of the core.  Each constructor corresponds
to a bounds check (or overflow check) that the Rust runtime performs; hitting
one aborts the process. -/
inductive Panic where
  /-- Indexing `ram` (4096 bytes) out of range. -/
  | ramIndexOutOfBounds
  /-- `push` or `pop` indexing `stack` (16 slots) out of range. -/
  | stackOverflow
  /-- `pop` computing `sp - 1` with `sp = 0` (u16 subtraction overflow). -/
  | stackUnderflow
  /-- Indexing `keys` (16 slots) with a key value `≥ 16`. -/
  | keyIndexOutOfBounds
  /-- `load` slicing `ram[start..end]` with `end > 4096`. -/
  | sliceIndexOutOfBounds
  /-- The `unimplemented!` macro in the catch-all match arm. -/
  | unimplementedOpcode
deriving DecidableEq

/-- The machine state, mirroring `pub struct Emu` field by field.
`RAM_SIZE = 4096`, `NUM_REGS = 16`, `STACK_SIZE = 16`, `NUM_KEYS = 16`,
`SCREEN_WIDTH = 64`, `SCREEN_HEIGHT = 32`; the screen index of pixel
`(x, y)` is `x + 64 * y` as in the source. -/
structure Emu where
  pc : Nat
  ram : Nat → Nat
  screen : Nat → Bool
  v_reg : Nat → Nat
  i_reg : Nat
  sp : Nat
  stack : Nat → Nat
  keys : Nat → Bool
  dt : Nat
  st : Nat

/-- Write a list of bytes into a byte-indexed function starting at `addr`;
this models `copy_from_slice` into `ram[addr .. addr + data.len()]`. -/
def storeBytes (ram : Nat → Nat) (addr : Nat) : List Nat → (Nat → Nat)
  | [] => ram
  | b :: rest => storeBytes (Function.update ram addr b) (addr + 1) rest

/-- The 80-byte font set constant `FONTSET` (16 glyphs of 5 bytes). -/
def FONTSET : List Nat :=
  [0xF0, 0x90, 0x90, 0x90, 0xF0,
   0x20, 0x60, 0x20, 0x20, 0x70,
   0xF0, 0x10, 0xF0, 0x80, 0xF0,
   0xF0, 0x10, 0xF0, 0x10, 0xF0,
   0x90, 0x90, 0xF0, 0x10, 0x10,
   0xF0, 0x80, 0xF0, 0x10, 0xF0,
   0xF0, 0x80, 0xF0, 0x90, 0xF0,
   0xF0, 0x10, 0x20, 0x40, 0x40,
   0xF0, 0x90, 0xF0, 0x90, 0xF0,
   0xF0, 0x90, 0xF0, 0x10, 0xF0,
   0xF0, 0x90, 0xF0, 0x90, 0x90,
   0xE0, 0x90, 0xE0, 0x90, 0xE0,
   0xF0, 0x80, 0x80, 0x80, 0xF0,
   0xE0, 0x90, 0x90, 0x90, 0xE0,
   0xF0, 0x80, 0xF0, 0x80, 0xF0,
   0xF0, 0x80, 0xF0, 0x80, 0x80]

/-- `Emu::new()`: everything zeroed, `pc = START_ADDR = 0x200`, font set
copied to the first 80 bytes of RAM. -/
def Emu.new : Emu :=
  { pc := 0x200
    ram := storeBytes (fun _ => 0) 0 FONTSET
    screen := fun _ => false
    v_reg := fun _ => 0
    i_reg := 0
    sp := 0
    stack := fun _ => 0
    keys := fun _ => false
    dt := 0
    st := 0 }

/-- `Emu::push`: `stack[sp] = val; sp += 1`.  The source has no bounds
check; at `sp ≥ 16` the Rust indexing panics. -/
def Emu.push (s : Emu) (val : Nat) : Except Panic Emu :=
  if s.sp < 16 then
    .ok { s with stack := Function.update s.stack s.sp val, sp := s.sp + 1 }
  else .error .stackOverflow

/-- `Emu::pop`: `sp -= 1; stack[sp]`.  At `sp = 0` the u16 subtraction
panics (debug) or wraps into an out-of-range index (release); a stack
pointer past the 16 slots panics on the indexing; either way the process
aborts. -/
def Emu.pop (s : Emu) : Except Panic (Nat × Emu) :=
  if s.sp = 0 then .error .stackUnderflow
  else if s.sp - 1 < 16 then
    .ok (s.stack (s.sp - 1), { s with sp := s.sp - 1 })
  else .error .stackOverflow

/-- `Emu::fetch`: read the big-endian opcode at `pc`, advance `pc` by 2.
Both `ram` reads are bounds-checked by the Rust runtime; an out-of-range
`pc` or `pc + 1` panics. -/
def Emu.fetch (s : Emu) : Except Panic (Nat × Emu) :=
  if s.pc < 4096 then
    if s.pc + 1 < 4096 then
      let higher_byte := s.ram s.pc
      let lower_byte := s.ram (s.pc + 1)
      let op := (higher_byte <<< 8) ||| lower_byte
      .ok (op, { s with pc := s.pc + 2 })
    else .error .ramIndexOutOfBounds
  else .error .ramIndexOutOfBounds

/-- The opcode the next `fetch` from `s` would return (when in bounds). -/
def fetchedOp (s : Emu) : Nat :=
  (s.ram s.pc <<< 8) ||| s.ram (s.pc + 1)

/-- One inner iteration of the DXYN draw loop (`for x_line in 0..8`):
if sprite bit `x_line` of the row byte `pixels` is set, toggle the wrapped
screen pixel and OR its pre-toggle value into the collision flag.
`acc.1` is the screen, `acc.2` the `flipped` flag. -/
def pixelStep (pixels xc yc yl : Nat) (acc : (Nat → Bool) × Bool) (xl : Nat) :
    (Nat → Bool) × Bool :=
  if pixels &&& (0x80 >>> xl) ≠ 0 then
    let x := (xc + xl) % 64
    let y := (yc + yl) % 32
    let idx := x + 64 * y
    (Function.update acc.1 idx (!acc.1 idx), acc.2 || acc.1 idx)
  else acc

/-- One outer iteration of the DXYN draw loop (`for y_line in 0..num_rows`):
read the row byte at `i_reg + y_line` and run the 8 inner iterations. -/
def rowStep (ram : Nat → Nat) (i xc yc : Nat) (acc : (Nat → Bool) × Bool)
    (yl : Nat) : (Nat → Bool) × Bool :=
  let pixels := ram (i + yl)
  (List.range 8).foldl (pixelStep pixels xc yc yl) acc

/-- The whole DXYN draw loop, returning the new screen and the `flipped`
collision flag. -/
def drawSprite (ram : Nat → Nat) (i xc yc n : Nat) (screen : Nat → Bool) :
    (Nat → Bool) × Bool :=
  (List.range n).foldl (rowStep ram i xc yc) (screen, false)

/-- `Emu::execute`: the 35-arm dispatch on the opcode nibbles, arm for arm in
source order.  Rust's `match` on `(digit1, digit2, digit3, digit4)` with
wildcards becomes a cascade of guards on the same nibble values.  `rnd` is
the byte `rand::thread_rng().gen()` would produce for opcode CXNN. -/
def execute (rnd : Nat) (s : Emu) (op : Nat) : Except Panic Emu :=
  -- The four opcode nibbles bound by the source (`digit1` .. `digit4`) are
  -- pure and are inlined at each use:
  --   digit1 = (op &&& 0xF000) >>> 12,  digit2 = (op &&& 0x0F00) >>> 8,
  --   digit3 = (op &&& 0x00F0) >>> 4,   digit4 = op &&& 0x000F,
  -- and likewise the arm-local `x`, `y`, `nn`, `nnn` bindings.
  -- (0, 0, 0, 0): NOP
  if (op &&& 0xF000) >>> 12 = 0 ∧ (op &&& 0x0F00) >>> 8 = 0 ∧
      (op &&& 0x00F0) >>> 4 = 0 ∧ op &&& 0x000F = 0 then .ok s
  -- (0, 0, 0xE, 0): CLS
  else if (op &&& 0xF000) >>> 12 = 0 ∧ (op &&& 0x0F00) >>> 8 = 0 ∧
      (op &&& 0x00F0) >>> 4 = 0xE ∧ op &&& 0x000F = 0 then
    .ok { s with screen := fun _ => false }
  -- (0, 0, 0xE, 0xE): RET
  else if (op &&& 0xF000) >>> 12 = 0 ∧ (op &&& 0x0F00) >>> 8 = 0 ∧
      (op &&& 0x00F0) >>> 4 = 0xE ∧ op &&& 0x000F = 0xE then
    match s.pop with
    | .ok (ret_addr, s) => .ok { s with pc := ret_addr }
    | .error e => .error e
  -- (1, _, _, _): JMP NNN
  else if (op &&& 0xF000) >>> 12 = 1 then
    .ok { s with pc := op &&& 0xFFF }
  -- (2, _, _, _): CALL NNN (push the current pc, then pc = NNN)
  else if (op &&& 0xF000) >>> 12 = 2 then
    match s.push s.pc with
    | .ok s => .ok { s with pc := op &&& 0xFFF }
    | .error e => .error e
  -- (3, _, _, _): SKIP if VX == NN
  else if (op &&& 0xF000) >>> 12 = 3 then
    if s.v_reg ((op &&& 0x0F00) >>> 8) = op &&& 0xFF then
      .ok { s with pc := s.pc + 2 }
    else .ok s
  -- (4, _, _, _): SKIP if VX != NN
  else if (op &&& 0xF000) >>> 12 = 4 then
    if s.v_reg ((op &&& 0x0F00) >>> 8) ≠ op &&& 0xFF then
      .ok { s with pc := s.pc + 2 }
    else .ok s
  -- (5, _, _, _): SKIP if VX == VY
  else if (op &&& 0xF000) >>> 12 = 5 then
    if s.v_reg ((op &&& 0x0F00) >>> 8) = s.v_reg ((op &&& 0x00F0) >>> 4) then
      .ok { s with pc := s.pc + 2 }
    else .ok s
  -- (6, _, _, _): VX = NN
  else if (op &&& 0xF000) >>> 12 = 6 then
    .ok { s with v_reg := (Function.update s.v_reg ((op &&& 0x0F00) >>> 8)
      (op &&& 0xFF)) }
  -- (7, _, _, _): VX += NN (wrapping u8 add)
  else if (op &&& 0xF000) >>> 12 = 7 then
    .ok { s with v_reg := (Function.update s.v_reg ((op &&& 0x0F00) >>> 8)
      ((s.v_reg ((op &&& 0x0F00) >>> 8) + (op &&& 0xFF)) % 256)) }
  -- (8, _, _, 0): VX = VY
  else if (op &&& 0xF000) >>> 12 = 8 ∧ op &&& 0x000F = 0 then
    .ok { s with v_reg := (Function.update s.v_reg ((op &&& 0x0F00) >>> 8)
      (s.v_reg ((op &&& 0x00F0) >>> 4))) }
  -- (8, _, _, 1): VX |= VY
  else if (op &&& 0xF000) >>> 12 = 8 ∧ op &&& 0x000F = 1 then
    .ok { s with v_reg := (Function.update s.v_reg ((op &&& 0x0F00) >>> 8)
      (s.v_reg ((op &&& 0x0F00) >>> 8) ||| s.v_reg ((op &&& 0x00F0) >>> 4))) }
  -- (8, _, _, 2): VX &= VY
  else if (op &&& 0xF000) >>> 12 = 8 ∧ op &&& 0x000F = 2 then
    .ok { s with v_reg := (Function.update s.v_reg ((op &&& 0x0F00) >>> 8)
      (s.v_reg ((op &&& 0x0F00) >>> 8) &&& s.v_reg ((op &&& 0x00F0) >>> 4))) }
  -- (8, _, _, 3): VX ^= VY
  else if (op &&& 0xF000) >>> 12 = 8 ∧ op &&& 0x000F = 3 then
    .ok { s with v_reg := (Function.update s.v_reg ((op &&& 0x0F00) >>> 8)
      (s.v_reg ((op &&& 0x0F00) >>> 8) ^^^ s.v_reg ((op &&& 0x00F0) >>> 4))) }
  -- (8, _, _, 4): VX += VY with carry into VF (VX written first, VF second)
  else if (op &&& 0xF000) >>> 12 = 8 ∧ op &&& 0x000F = 4 then
    .ok { s with v_reg := (Function.update (Function.update s.v_reg
      ((op &&& 0x0F00) >>> 8)
      ((s.v_reg ((op &&& 0x0F00) >>> 8) +
        s.v_reg ((op &&& 0x00F0) >>> 4)) % 256)) 15
      (if 255 < s.v_reg ((op &&& 0x0F00) >>> 8) +
        s.v_reg ((op &&& 0x00F0) >>> 4) then 1 else 0)) }
  -- (8, _, _, 5): VX -= VY with borrow flag (VX written first, VF second)
  else if (op &&& 0xF000) >>> 12 = 8 ∧ op &&& 0x000F = 5 then
    .ok { s with v_reg := (Function.update (Function.update s.v_reg
      ((op &&& 0x0F00) >>> 8)
      ((s.v_reg ((op &&& 0x0F00) >>> 8) + 256 -
        s.v_reg ((op &&& 0x00F0) >>> 4)) % 256)) 15
      (if s.v_reg ((op &&& 0x0F00) >>> 8) <
        s.v_reg ((op &&& 0x00F0) >>> 4) then 0 else 1)) }
  -- (8, _, _, 6): VX >>= 1, dropped bit into VF (VX written first, VF second)
  else if (op &&& 0xF000) >>> 12 = 8 ∧ op &&& 0x000F = 6 then
    .ok { s with v_reg := (Function.update (Function.update s.v_reg
      ((op &&& 0x0F00) >>> 8) (s.v_reg ((op &&& 0x0F00) >>> 8) >>> 1)) 15
      (s.v_reg ((op &&& 0x0F00) >>> 8) &&& 1)) }
  -- (8, _, _, 7): VX = VY - VX with borrow flag (VF written first, VX second)
  else if (op &&& 0xF000) >>> 12 = 8 ∧ op &&& 0x000F = 7 then
    .ok { s with v_reg := (Function.update (Function.update s.v_reg 15
      (if s.v_reg ((op &&& 0x00F0) >>> 4) <
        s.v_reg ((op &&& 0x0F00) >>> 8) then 0 else 1))
      ((op &&& 0x0F00) >>> 8)
      ((s.v_reg ((op &&& 0x00F0) >>> 4) + 256 -
        s.v_reg ((op &&& 0x0F00) >>> 8)) % 256)) }
  -- (8, _, _, 0xE): VX <<= 1 (u8, truncating), top bit into VF
  -- (VF written first, VX second, so the shift reads the updated array)
  else if (op &&& 0xF000) >>> 12 = 8 ∧ op &&& 0x000F = 0xE then
    .ok { s with v_reg := (Function.update (Function.update s.v_reg 15
      ((s.v_reg ((op &&& 0x0F00) >>> 8) >>> 7) &&& 1))
      ((op &&& 0x0F00) >>> 8)
      ((Function.update s.v_reg 15
        ((s.v_reg ((op &&& 0x0F00) >>> 8) >>> 7) &&& 1)
        ((op &&& 0x0F00) >>> 8) <<< 1) % 256)) }
  -- (9, _, _, 0): SKIP if VX != VY
  else if (op &&& 0xF000) >>> 12 = 9 ∧ op &&& 0x000F = 0 then
    if s.v_reg ((op &&& 0x0F00) >>> 8) ≠ s.v_reg ((op &&& 0x00F0) >>> 4) then
      .ok { s with pc := s.pc + 2 }
    else .ok s
  -- (0xA, _, _, _): I = NNN
  else if (op &&& 0xF000) >>> 12 = 0xA then
    .ok { s with i_reg := op &&& 0xFFF }
  -- (0xB, _, _, _): JMP V0 + NNN
  else if (op &&& 0xF000) >>> 12 = 0xB then
    .ok { s with pc := s.v_reg 0 + (op &&& 0xFFF) }
  -- (0xC, _, _, _): VX = rand byte & NN
  else if (op &&& 0xF000) >>> 12 = 0xC then
    .ok { s with v_reg := (Function.update s.v_reg ((op &&& 0x0F00) >>> 8)
      ((rnd % 256) &&& (op &&& 0xFF))) }
  -- (0xD, _, _, _): DRAW.  Each row byte is read at ram[i_reg + y_line];
  -- a row index ≥ 4096 panics (mid-loop in Rust; the partially drawn state
  -- is unobservable because the process aborts, so the guard is hoisted).
  else if (op &&& 0xF000) >>> 12 = 0xD then
    if op &&& 0x000F = 0 ∨ s.i_reg + (op &&& 0x000F) ≤ 4096 then
      .ok { s with
        screen := ((drawSprite s.ram s.i_reg
          (s.v_reg ((op &&& 0x0F00) >>> 8)) (s.v_reg ((op &&& 0x00F0) >>> 4))
          (op &&& 0x000F) s.screen).1)
        v_reg := (Function.update s.v_reg 15
          (if (drawSprite s.ram s.i_reg (s.v_reg ((op &&& 0x0F00) >>> 8))
            (s.v_reg ((op &&& 0x00F0) >>> 4)) (op &&& 0x000F) s.screen).2
           then 1 else 0)) }
    else .error .ramIndexOutOfBounds
  -- (0xE, _, 9, 0xE): SKIP if key VX pressed (keys[vx] panics for vx ≥ 16)
  else if (op &&& 0xF000) >>> 12 = 0xE ∧ (op &&& 0x00F0) >>> 4 = 9 ∧
      op &&& 0x000F = 0xE then
    if s.v_reg ((op &&& 0x0F00) >>> 8) < 16 then
      if s.keys (s.v_reg ((op &&& 0x0F00) >>> 8)) then
        .ok { s with pc := s.pc + 2 }
      else .ok s
    else .error .keyIndexOutOfBounds
  -- (0xE, _, 0xA, 1): SKIP if key VX not pressed
  else if (op &&& 0xF000) >>> 12 = 0xE ∧ (op &&& 0x00F0) >>> 4 = 0xA ∧
      op &&& 0x000F = 1 then
    if s.v_reg ((op &&& 0x0F00) >>> 8) < 16 then
      if !s.keys (s.v_reg ((op &&& 0x0F00) >>> 8)) then
        .ok { s with pc := s.pc + 2 }
      else .ok s
    else .error .keyIndexOutOfBounds
  -- (0xF, _, 0, 7): VX = DT
  else if (op &&& 0xF000) >>> 12 = 0xF ∧ (op &&& 0x00F0) >>> 4 = 0 ∧
      op &&& 0x000F = 7 then
    .ok { s with v_reg := Function.update s.v_reg ((op &&& 0x0F00) >>> 8) s.dt }
  -- (0xF, _, 0, 0xA): WAIT KEY, scanning keys 0..16 low to high;
  -- if none pressed, redo this opcode next tick (pc -= 2)
  else if (op &&& 0xF000) >>> 12 = 0xF ∧ (op &&& 0x00F0) >>> 4 = 0 ∧
      op &&& 0x000F = 0xA then
    match (List.range 16).find? (fun i => s.keys i) with
    | some i => .ok { s with v_reg := (Function.update s.v_reg
        ((op &&& 0x0F00) >>> 8) i) }
    | none => .ok { s with pc := s.pc - 2 }
  -- (0xF, _, 1, 5): DT = VX
  else if (op &&& 0xF000) >>> 12 = 0xF ∧ (op &&& 0x00F0) >>> 4 = 1 ∧
      op &&& 0x000F = 5 then
    .ok { s with dt := s.v_reg ((op &&& 0x0F00) >>> 8) }
  -- (0xF, _, 1, 8): ST = VX
  else if (op &&& 0xF000) >>> 12 = 0xF ∧ (op &&& 0x00F0) >>> 4 = 1 ∧
      op &&& 0x000F = 8 then
    .ok { s with st := s.v_reg ((op &&& 0x0F00) >>> 8) }
  -- (0xF, _, 1, 0xE): I += VX (wrapping u16 add)
  else if (op &&& 0xF000) >>> 12 = 0xF ∧ (op &&& 0x00F0) >>> 4 = 1 ∧
      op &&& 0x000F = 0xE then
    .ok { s with i_reg := (s.i_reg + s.v_reg ((op &&& 0x0F00) >>> 8)) % 65536 }
  -- (0xF, _, 2, 9): I = VX * 5 (font glyph address)
  else if (op &&& 0xF000) >>> 12 = 0xF ∧ (op &&& 0x00F0) >>> 4 = 2 ∧
      op &&& 0x000F = 9 then
    .ok { s with i_reg := s.v_reg ((op &&& 0x0F00) >>> 8) * 5 }
  -- (0xF, _, 3, 3): BCD of VX into ram[i_reg .. i_reg + 2].  The source
  -- computes the digits through f32 division/floor, which agrees with
  -- integer div/mod for every u8 value (integers below 2^24 are exact in
  -- f32 and the quotients are never within rounding distance of an
  -- integer boundary).  The three writes are bounds-checked.
  else if (op &&& 0xF000) >>> 12 = 0xF ∧ (op &&& 0x00F0) >>> 4 = 3 ∧
      op &&& 0x000F = 3 then
    if s.i_reg + 2 < 4096 then
      .ok { s with ram :=
        (Function.update (Function.update (Function.update s.ram
          s.i_reg (s.v_reg ((op &&& 0x0F00) >>> 8) / 100))
          (s.i_reg + 1) (s.v_reg ((op &&& 0x0F00) >>> 8) / 10 % 10))
          (s.i_reg + 2) (s.v_reg ((op &&& 0x0F00) >>> 8) % 10)) }
    else .error .ramIndexOutOfBounds
  -- (0xF, _, 5, 5): STORE V0..=VX at ram[i_reg..]; the writes at
  -- i_reg + idx, idx = 0..=x, are bounds-checked (panic iff i_reg + x ≥ 4096)
  else if (op &&& 0xF000) >>> 12 = 0xF ∧ (op &&& 0x00F0) >>> 4 = 5 ∧
      op &&& 0x000F = 5 then
    if s.i_reg + ((op &&& 0x0F00) >>> 8) < 4096 then
      .ok { s with ram := ((List.range (((op &&& 0x0F00) >>> 8) + 1)).foldl
        (fun r idx => Function.update r (s.i_reg + idx) (s.v_reg idx))
        s.ram) }
    else .error .ramIndexOutOfBounds
  -- (0xF, _, 6, 5): LOAD V0..=VX from ram[i_reg..]
  else if (op &&& 0xF000) >>> 12 = 0xF ∧ (op &&& 0x00F0) >>> 4 = 6 ∧
      op &&& 0x000F = 5 then
    if s.i_reg + ((op &&& 0x0F00) >>> 8) < 4096 then
      .ok { s with v_reg := ((List.range (((op &&& 0x0F00) >>> 8) + 1)).foldl
        (fun v idx => Function.update v idx (s.ram (s.i_reg + idx)))
        s.v_reg) }
    else .error .ramIndexOutOfBounds
  -- catch-all: unimplemented!
  else .error .unimplementedOpcode

/-- `Emu::tick`: fetch, then decode and execute. -/
def tick (rnd : Nat) (s : Emu) : Except Panic Emu :=
  match s.fetch with
  | .ok (op, s₁) => execute rnd s₁ op
  | .error e => .error e

/-- `Emu::tick_timers`: decrement each timer if positive (the sound-timer
beep is a no-op hook). -/
def tick_timers (s : Emu) : Emu :=
  let s₁ := if 0 < s.dt then { s with dt := s.dt - 1 } else s
  if 0 < s₁.st then { s₁ with st := s₁.st - 1 } else s₁

/-- `Emu::keypress`: record a key transition; `keys[idx]` panics for
`idx ≥ 16`. -/
def keypress (s : Emu) (idx : Nat) (pressed : Bool) : Except Panic Emu :=
  if idx < 16 then .ok { s with keys := Function.update s.keys idx pressed }
  else .error .keyIndexOutOfBounds

/-- `Emu::load`: copy the program into `ram[0x200 .. 0x200 + len]`.  The
slice `ram[start..end]` is bounds-checked before anything is written, so an
oversized program panics without touching memory. -/
def load (s : Emu) (data : List Nat) : Except Panic Emu :=
  if 0x200 + data.length ≤ 4096 then
    .ok { s with ram := storeBytes s.ram 0x200 data }
  else .error .sliceIndexOutOfBounds

/-! ## Characterization of the DXYN draw loop -/

/-- Does the draw row with byte `pixels` at row offset `yl` toggle screen
index `q`?  (One set sprite bit per column, wrapped coordinates.) -/
def rowHits (pixels xc yc yl q : Nat) : Bool :=
  (List.range 8).any fun xl =>
    (!(pixels &&& (0x80 >>> xl) == 0)) &&
      ((xc + xl) % 64 + 64 * ((yc + yl) % 32) == q)

/-- Does the draw row with byte `pixels` at row offset `yl` meet an
already-lit pixel of screen `scr`? -/
def rowCollides (scr : Nat → Bool) (pixels xc yc yl : Nat) : Bool :=
  (List.range 8).any fun xl =>
    (!(pixels &&& (0x80 >>> xl) == 0)) &&
      scr ((xc + xl) % 64 + 64 * ((yc + yl) % 32))

/-- Does the N-row sprite at `ram[i..]` toggle screen index `q`? -/
def spriteHits (ram : Nat → Nat) (i xc yc n q : Nat) : Bool :=
  (List.range n).any fun yl => rowHits (ram (i + yl)) xc yc yl q

/-- Does the N-row sprite at `ram[i..]` meet an already-lit pixel of `scr`? -/
def spriteCollides (scr : Nat → Bool) (ram : Nat → Nat) (i xc yc n : Nat) : Bool :=
  (List.range n).any fun yl => rowCollides scr (ram (i + yl)) xc yc yl

/-- Does the N-row sprite at `ram[i..]` contain any set bit at all? -/
def spriteInk (ram : Nat → Nat) (i n : Nat) : Bool :=
  (List.range n).any fun yl => (List.range 8).any fun xl =>
    !(ram (i + yl) &&& (0x80 >>> xl) == 0)

/-- Pointwise congruence for `List.any`. -/
theorem list_any_congr {l : List Nat} {f g : Nat → Bool}
    (h : ∀ a ∈ l, f a = g a) : l.any f = l.any g := by
  induction l with
  | nil => rfl
  | cons a t ih =>
    simp only [List.any_cons, h a (by simp)]
    rw [ih (fun b hb => h b (by simp [hb]))]

/-- The inner (column) draw loop, over any duplicate-free list of column
indices below 8: each targeted pixel is toggled exactly once, every other
pixel is untouched, and the flag accumulates the pre-toggle values of the
targeted pixels. -/
theorem pixelFold_spec (pixels xc yc yl : Nat) :
    ∀ (l : List Nat), l.Pairwise (· ≠ ·) → (∀ a ∈ l, a < 8) →
    ∀ (acc : (Nat → Bool) × Bool) (q : Nat),
    ((l.foldl (pixelStep pixels xc yc yl) acc).1 q =
      xor (l.any fun xl => (!(pixels &&& (0x80 >>> xl) == 0)) &&
        ((xc + xl) % 64 + 64 * ((yc + yl) % 32) == q)) (acc.1 q)) ∧
    ((l.foldl (pixelStep pixels xc yc yl) acc).2 =
      (acc.2 || l.any fun xl => (!(pixels &&& (0x80 >>> xl) == 0)) &&
        acc.1 ((xc + xl) % 64 + 64 * ((yc + yl) % 32)))) := by
  intro l
  induction l with
  | nil => intro _ _ acc q; simp
  | cons a t ih =>
    intro hpw hlt acc q
    have hpw' : t.Pairwise (· ≠ ·) := (List.pairwise_cons.mp hpw).2
    have hane : ∀ b ∈ t, a ≠ b := (List.pairwise_cons.mp hpw).1
    have hlt' : ∀ b ∈ t, b < 8 := fun b hb => hlt b (by simp [hb])
    have ha8 : a < 8 := hlt a (by simp)
    by_cases hbit : pixels &&& (0x80 >>> a) = 0
    · have hstep : pixelStep pixels xc yc yl acc a = acc := by
        simp [pixelStep, hbit]
      obtain ⟨ihs, ihf⟩ := ih hpw' hlt' acc q
      constructor
      · simp only [List.foldl_cons, hstep, List.any_cons, hbit, beq_self_eq_true,
          Bool.not_true, Bool.false_and, Bool.false_or, ihs]
      · simp only [List.foldl_cons, hstep, List.any_cons, hbit, beq_self_eq_true,
          Bool.not_true, Bool.false_and, Bool.false_or, ihf]
    · -- the sprite bit is set: the step toggles index `idxa`
      have hstep : pixelStep pixels xc yc yl acc a =
          (Function.update acc.1 ((xc + a) % 64 + 64 * ((yc + yl) % 32))
            (!acc.1 ((xc + a) % 64 + 64 * ((yc + yl) % 32))),
           acc.2 || acc.1 ((xc + a) % 64 + 64 * ((yc + yl) % 32))) := by
        simp [pixelStep, hbit]
      obtain ⟨ihs, ihf⟩ := ih hpw' hlt'
        (pixelStep pixels xc yc yl acc a) q
      -- other columns of this row target different indices
      have hidx : ∀ b, b ∈ t →
          (xc + b) % 64 + 64 * ((yc + yl) % 32) ≠
          (xc + a) % 64 + 64 * ((yc + yl) % 32) := by
        intro b hb
        have hab : a ≠ b := hane b hb
        have hb8 : b < 8 := hlt' b hb
        omega
      constructor
      · rw [List.foldl_cons, ihs]
        by_cases hq : (xc + a) % 64 + 64 * ((yc + yl) % 32) = q
        · have hTfalse : (t.any fun xl => (!(pixels &&& (0x80 >>> xl) == 0)) &&
              ((xc + xl) % 64 + 64 * ((yc + yl) % 32) == q)) = false := by
            rw [List.any_eq_false]
            intro b hb
            have := hidx b hb
            simp only [Bool.and_eq_true, beq_iff_eq, not_and]
            intro _
            omega
          rw [hTfalse, hstep]
          subst hq
          have hb2 : (pixels &&& (0x80 >>> a) == 0) = false := by simp [hbit]
          simp [Function.update_same, List.any_cons, hb2]
        · have hscr : (pixelStep pixels xc yc yl acc a).1 q = acc.1 q := by
            rw [hstep]
            exact Function.update_noteq (fun h => hq h.symm) _ _
          rw [hscr, List.any_cons]
          have : ((xc + a) % 64 + 64 * ((yc + yl) % 32) == q) = false := by
            simp [hq]
          simp [this, hbit]
      · rw [List.foldl_cons, ihf, hstep]
        have hcongr : (t.any fun xl => (!(pixels &&& (0x80 >>> xl) == 0)) &&
            (Function.update acc.1 ((xc + a) % 64 + 64 * ((yc + yl) % 32))
              (!acc.1 ((xc + a) % 64 + 64 * ((yc + yl) % 32))))
              ((xc + xl) % 64 + 64 * ((yc + yl) % 32))) =
            (t.any fun xl => (!(pixels &&& (0x80 >>> xl) == 0)) &&
              acc.1 ((xc + xl) % 64 + 64 * ((yc + yl) % 32))) := by
          refine list_any_congr (fun b hb => ?_)
          rw [Function.update_noteq (hidx b hb)]
        rw [hcongr, List.any_cons]
        have hb2 : (pixels &&& (0x80 >>> a) == 0) = false := by simp [hbit]
        simp [hb2, Bool.or_assoc]

/-- Reformulation of `pixelFold_spec` for one full row (`x_line in 0..8`),
screen component. -/
theorem rowStep_fst (ram : Nat → Nat) (i xc yc : Nat)
    (acc : (Nat → Bool) × Bool) (yl q : Nat) :
    (rowStep ram i xc yc acc yl).1 q =
      xor (rowHits (ram (i + yl)) xc yc yl q) (acc.1 q) :=
  (pixelFold_spec (ram (i + yl)) xc yc yl (List.range 8)
    (List.nodup_range 8) (fun a ha => List.mem_range.mp ha) acc q).1

/-- Reformulation of `pixelFold_spec` for one full row, flag component. -/
theorem rowStep_snd (ram : Nat → Nat) (i xc yc : Nat)
    (acc : (Nat → Bool) × Bool) (yl : Nat) :
    (rowStep ram i xc yc acc yl).2 =
      (acc.2 || rowCollides acc.1 (ram (i + yl)) xc yc yl) :=
  (pixelFold_spec (ram (i + yl)) xc yc yl (List.range 8)
    (List.nodup_range 8) (fun a ha => List.mem_range.mp ha) acc 0).2

/-- A draw row never toggles a pixel index belonging to a different row:
with at most 16 rows the wrapped row coordinates `(yc + _) % 32` are
pairwise distinct. -/
theorem rowHits_false_of_ne (pixels xc yc : Nat) {a b xl : Nat}
    (hab : a ≠ b) (ha : a < 16) (hb : b < 16) (hxl : xl < 8) :
    rowHits pixels xc yc a ((xc + xl) % 64 + 64 * ((yc + b) % 32)) = false := by
  rw [rowHits, List.any_eq_false]
  intro xl' hxl'
  rw [List.mem_range] at hxl'
  simp only [Bool.and_eq_true, beq_iff_eq, not_and]
  intro _
  omega

/-- The outer (row) draw loop, over any duplicate-free list of row offsets
below 16: pixel `q` ends toggled iff exactly one row hits it, and the flag
accumulates collisions against the original screen. -/
theorem rowFold_spec (ram : Nat → Nat) (i xc yc : Nat) :
    ∀ (l : List Nat), l.Pairwise (· ≠ ·) → (∀ a ∈ l, a < 16) →
    ∀ (acc : (Nat → Bool) × Bool) (q : Nat),
    ((l.foldl (rowStep ram i xc yc) acc).1 q =
      xor (l.any fun yl => rowHits (ram (i + yl)) xc yc yl q) (acc.1 q)) ∧
    ((l.foldl (rowStep ram i xc yc) acc).2 =
      (acc.2 || l.any fun yl => rowCollides acc.1 (ram (i + yl)) xc yc yl)) := by
  intro l
  induction l with
  | nil => intro _ _ acc q; simp
  | cons a t ih =>
    intro hpw hlt acc q
    have hpw' : t.Pairwise (· ≠ ·) := (List.pairwise_cons.mp hpw).2
    have hane : ∀ b ∈ t, a ≠ b := (List.pairwise_cons.mp hpw).1
    have hlt' : ∀ b ∈ t, b < 16 := fun b hb => hlt b (by simp [hb])
    have ha16 : a < 16 := hlt a (by simp)
    obtain ⟨ihs, ihf⟩ := ih hpw' hlt' (rowStep ram i xc yc acc a) q
    constructor
    · rw [List.foldl_cons, ihs, rowStep_fst, List.any_cons]
      by_cases hA : rowHits (ram (i + a)) xc yc a q = true
      · have hT : (t.any fun yl => rowHits (ram (i + yl)) xc yc yl q) = false := by
          rw [List.any_eq_false]
          intro b hb
          rw [rowHits, List.any_eq_true] at hA
          obtain ⟨xl, hxl, hterm⟩ := hA
          rw [List.mem_range] at hxl
          rw [Bool.and_eq_true, beq_iff_eq] at hterm
          rw [← hterm.2]
          have := rowHits_false_of_ne (ram (i + b)) xc yc
            (a := b) (b := a) (Ne.symm (hane b hb)) (hlt' b hb) ha16 hxl
          simp [this]
        rw [hA, hT]
        simp
      · rw [Bool.not_eq_true] at hA
        rw [hA]
        simp
    · rw [List.foldl_cons, ihf, rowStep_snd, List.any_cons]
      have hcongr : (t.any fun yl =>
          rowCollides (rowStep ram i xc yc acc a).1 (ram (i + yl)) xc yc yl) =
          (t.any fun yl => rowCollides acc.1 (ram (i + yl)) xc yc yl) := by
        refine list_any_congr (fun b hb => ?_)
        rw [rowCollides, rowCollides]
        refine list_any_congr (fun xl hxl => ?_)
        rw [List.mem_range] at hxl
        have hxne : rowHits (ram (i + a)) xc yc a
            ((xc + xl) % 64 + 64 * ((yc + b) % 32)) = false :=
          rowHits_false_of_ne (ram (i + a)) xc yc
            (hane b hb) ha16 (hlt' b hb) hxl
        rw [rowStep_fst, hxne, Bool.false_xor]
      rw [hcongr, Bool.or_assoc]

/-- Per-pixel specification of the whole draw: the new value of pixel
index `q` is the old value XORed with whether the sprite hits `q`. -/
theorem drawSprite_fst (ram : Nat → Nat) (i xc yc n : Nat)
    (scr : Nat → Bool) (q : Nat) (hn : n ≤ 16) :
    (drawSprite ram i xc yc n scr).1 q =
      xor (spriteHits ram i xc yc n q) (scr q) :=
  (rowFold_spec ram i xc yc (List.range n) (List.nodup_range n)
    (fun a ha => Nat.lt_of_lt_of_le (List.mem_range.mp ha) hn)
    (scr, false) q).1

/-- The draw collision flag is exactly: some set sprite bit lands on an
already-lit pixel of the original screen. -/
theorem drawSprite_snd (ram : Nat → Nat) (i xc yc n : Nat)
    (scr : Nat → Bool) (hn : n ≤ 16) :
    (drawSprite ram i xc yc n scr).2 =
      spriteCollides scr ram i xc yc n :=
  (rowFold_spec ram i xc yc (List.range n) (List.nodup_range n)
    (fun a ha => Nat.lt_of_lt_of_le (List.mem_range.mp ha) hn)
    (scr, false) 0).2

/-! ## Reduction of the DXYN arm of `execute` -/

/-- `execute` on a DXYN opcode (high nibble `0xD`) whose sprite rows are
readable performs exactly the draw loop and the V[F] write. -/
theorem execute_draw (rnd : Nat) (s : Emu) (op : Nat)
    (h1 : (op &&& 0xF000) >>> 12 = 0xD)
    (hmem : op &&& 0x000F = 0 ∨ s.i_reg + (op &&& 0x000F) ≤ 4096) :
    execute rnd s op = .ok { s with
      screen := ((drawSprite s.ram s.i_reg (s.v_reg ((op &&& 0x0F00) >>> 8))
        (s.v_reg ((op &&& 0x00F0) >>> 4)) (op &&& 0x000F) s.screen).1)
      v_reg := (Function.update s.v_reg 15
        (if (drawSprite s.ram s.i_reg (s.v_reg ((op &&& 0x0F00) >>> 8))
          (s.v_reg ((op &&& 0x00F0) >>> 4)) (op &&& 0x000F) s.screen).2
         then 1 else 0)) } := by
  simp [execute, h1, hmem]

/-! ## Claim C1: per-pixel specification of DXYN -/

/-- Claim C1 as written wraps the row coordinate modulo 64; this is the
claim's hit predicate (compare `rowHits`, which has the source's `% 32`). -/
def claimRowHits (pixels xc yc yl q : Nat) : Bool :=
  (List.range 8).any fun xl =>
    (!(pixels &&& (0x80 >>> xl) == 0)) &&
      ((xc + xl) % 64 + 64 * ((yc + yl) % 64) == q)

/-- Sprite-level version of `claimRowHits` (claim C1 as written). -/
def claimSpriteHits (ram : Nat → Nat) (i xc yc n q : Nat) : Bool :=
  (List.range n).any fun yl => claimRowHits (ram (i + yl)) xc yc yl q

/-- Collision flag of claim C1 as written (pre-XOR value at the `% 64`
wrapped targets). -/
def claimSpriteCollides (scr : Nat → Bool) (ram : Nat → Nat)
    (i xc yc n : Nat) : Bool :=
  (List.range n).any fun yl => (List.range 8).any fun xl =>
    (!(ram (i + yl) &&& (0x80 >>> xl) == 0)) &&
      scr ((xc + xl) % 64 + 64 * ((yc + yl) % 64))

/-- Claim C1 exactly as stated: every set sprite bit toggles the pixel at
`((V[X]+col) mod 64, (V[Y]+row) mod 64)`, nothing else changes, and V[F]
records whether a toggled pixel was previously on. -/
def claimC1Statement : Prop :=
  ∀ rnd s op, (op &&& 0xF000) >>> 12 = 0xD →
    (op &&& 0x000F = 0 ∨ s.i_reg + (op &&& 0x000F) ≤ 4096) →
    ∃ s', execute rnd s op = .ok s' ∧
      (∀ px py, px < 64 → py < 32 →
        s'.screen (px + 64 * py) =
          xor (claimSpriteHits s.ram s.i_reg (s.v_reg ((op &&& 0x0F00) >>> 8))
            (s.v_reg ((op &&& 0x00F0) >>> 4)) (op &&& 0x000F) (px + 64 * py))
            (s.screen (px + 64 * py))) ∧
      s'.v_reg 15 = (if claimSpriteCollides s.screen s.ram s.i_reg
          (s.v_reg ((op &&& 0x0F00) >>> 8)) (s.v_reg ((op &&& 0x00F0) >>> 4))
          (op &&& 0x000F) then 1 else 0)

/-- Concrete machine refuting claim C1 as written: one-row sprite `0x80` at
`ram[768]`, drawn at `(V[0], V[1]) = (0, 32)`.  The source wraps the row to
`32 % 32 = 0` and toggles pixel `(0, 0)`; the claim's `32 % 64 = 32` points
at no on-screen pixel, so the claim predicts pixel `(0, 0)` is unchanged. -/
def c1s : Emu :=
  { Emu.new with
    ram := Function.update Emu.new.ram 768 0x80
    v_reg := Function.update Emu.new.v_reg 1 32
    i_reg := 768 }

/-- Claim C1: corrected.  The claim as stated (row coordinate wrapped
modulo 64) is false on the concrete input `c1s` with opcode `0xD011`. -/
theorem claimC1_counterexample : ¬ claimC1Statement := by
  intro h
  obtain ⟨s', hexec, hpix, -⟩ := h 0 c1s 0xD011 (by decide) (Or.inr (by decide))
  rw [show execute 0 c1s 0xD011 = (Except.ok
      { c1s with
        screen := Function.update c1s.screen 0 true
        v_reg := Function.update c1s.v_reg 15 0 } : Except Panic Emu) from rfl] at hexec
  injection hexec with hexec
  subst hexec
  have h00 := hpix 0 0 (by omega) (by omega)
  revert h00
  decide

/-- Claim C1, amended (row coordinate wrapped modulo 32, the screen height):
executing DXYN with the sprite rows in memory XORs exactly the wrapped
targets of the set sprite bits into the display, leaves every other pixel
unchanged, and sets V[F] to 1 iff some toggled pixel was on before. -/
theorem dxyn_draw_spec (rnd : Nat) (s : Emu) (op : Nat)
    (h1 : (op &&& 0xF000) >>> 12 = 0xD)
    (hmem : op &&& 0x000F = 0 ∨ s.i_reg + (op &&& 0x000F) ≤ 4096) :
    ∃ s', execute rnd s op = .ok s' ∧
      (∀ px py, px < 64 → py < 32 →
        s'.screen (px + 64 * py) =
          xor (spriteHits s.ram s.i_reg (s.v_reg ((op &&& 0x0F00) >>> 8))
            (s.v_reg ((op &&& 0x00F0) >>> 4)) (op &&& 0x000F) (px + 64 * py))
            (s.screen (px + 64 * py))) ∧
      s'.v_reg 15 = (if spriteCollides s.screen s.ram s.i_reg
          (s.v_reg ((op &&& 0x0F00) >>> 8)) (s.v_reg ((op &&& 0x00F0) >>> 4))
          (op &&& 0x000F) then 1 else 0) := by
  have hn : op &&& 0x000F ≤ 16 :=
    Nat.le_trans Nat.and_le_right (by norm_num)
  refine ⟨_, execute_draw rnd s op h1 hmem, ?_, ?_⟩
  · intro px py hpx hpy
    exact drawSprite_fst s.ram s.i_reg _ _ _ s.screen _ hn
  · have h2 := drawSprite_snd s.ram s.i_reg (s.v_reg ((op &&& 0x0F00) >>> 8))
      (s.v_reg ((op &&& 0x00F0) >>> 4)) (op &&& 0x000F) s.screen hn
    show Function.update s.v_reg 15
      (if (drawSprite s.ram s.i_reg (s.v_reg ((op &&& 0x0F00) >>> 8))
        (s.v_reg ((op &&& 0x00F0) >>> 4)) (op &&& 0x000F) s.screen).2
       then 1 else 0) 15 = _
    rw [h2, Function.update_same]

/-- Witness for `dxyn_draw_spec` at the concrete input `c1s`, `0xD011`. -/
theorem dxyn_draw_spec_witness :
    ((0xD011 &&& 0xF000) >>> 12 = 0xD) ∧
    (0xD011 &&& 0x000F = 0 ∨ c1s.i_reg + (0xD011 &&& 0x000F) ≤ 4096) ∧
    (∃ s', execute 0 c1s 0xD011 = .ok s' ∧
      (∀ px py, px < 64 → py < 32 →
        s'.screen (px + 64 * py) =
          xor (spriteHits c1s.ram c1s.i_reg
            (c1s.v_reg ((0xD011 &&& 0x0F00) >>> 8))
            (c1s.v_reg ((0xD011 &&& 0x00F0) >>> 4)) (0xD011 &&& 0x000F)
            (px + 64 * py))
            (c1s.screen (px + 64 * py))) ∧
      s'.v_reg 15 = (if claimSpriteCollides c1s.screen c1s.ram c1s.i_reg
          (c1s.v_reg ((0xD011 &&& 0x0F00) >>> 8))
          (c1s.v_reg ((0xD011 &&& 0x00F0) >>> 4))
          (0xD011 &&& 0x000F) then 1 else 0)) :=
  ⟨by decide, Or.inr (by decide),
    by
      obtain ⟨s', h₁, h₂, h₃⟩ :=
        dxyn_draw_spec 0 c1s 0xD011 (by decide) (Or.inr (by decide))
      exact ⟨s', h₁, h₂, by rw [h₃]; decide⟩⟩

/-! ## Claim C6: drawing the identical sprite twice -/

/-- Executing the same opcode twice in succession (the second execution on
the result of the first). -/
def drawTwice (rnd rnd' : Nat) (s : Emu) (op : Nat) : Except Panic Emu :=
  match execute rnd s op with
  | .ok s₁ => execute rnd' s₁ op
  | .error e => .error e

/-- Field-by-field description of executing a DXYN opcode. -/
theorem execute_draw_parts (rnd : Nat) (s : Emu) (op : Nat)
    (h1 : (op &&& 0xF000) >>> 12 = 0xD)
    (hmem : op &&& 0x000F = 0 ∨ s.i_reg + (op &&& 0x000F) ≤ 4096) :
    ∃ s', execute rnd s op = .ok s' ∧
      s'.ram = s.ram ∧ s'.i_reg = s.i_reg ∧
      (∀ q, s'.screen q =
        xor (spriteHits s.ram s.i_reg (s.v_reg ((op &&& 0x0F00) >>> 8))
          (s.v_reg ((op &&& 0x00F0) >>> 4)) (op &&& 0x000F) q) (s.screen q)) ∧
      (∀ r, r ≠ 15 → s'.v_reg r = s.v_reg r) ∧
      s'.v_reg 15 = (if spriteCollides s.screen s.ram s.i_reg
        (s.v_reg ((op &&& 0x0F00) >>> 8)) (s.v_reg ((op &&& 0x00F0) >>> 4))
        (op &&& 0x000F) then 1 else 0) := by
  have hn : op &&& 0x000F ≤ 16 := Nat.le_trans Nat.and_le_right (by norm_num)
  refine ⟨_, execute_draw rnd s op h1 hmem, rfl, rfl, ?_, ?_, ?_⟩
  · intro q
    exact drawSprite_fst s.ram s.i_reg _ _ _ s.screen q hn
  · intro r hr
    exact Function.update_noteq hr _ _
  · have h2 := drawSprite_snd s.ram s.i_reg (s.v_reg ((op &&& 0x0F00) >>> 8))
      (s.v_reg ((op &&& 0x00F0) >>> 4)) (op &&& 0x000F) s.screen hn
    show Function.update s.v_reg 15
      (if (drawSprite s.ram s.i_reg (s.v_reg ((op &&& 0x0F00) >>> 8))
        (s.v_reg ((op &&& 0x00F0) >>> 4)) (op &&& 0x000F) s.screen).2
       then 1 else 0) 15 = _
    rw [h2, Function.update_same]

/-- After a collision-free draw of a sprite with at least one set bit, the
same draw on the resulting screen does collide: every set bit now points at
a pixel the first draw turned on. -/
theorem spriteCollides_after_draw (ram : Nat → Nat) (i xc yc n : Nat)
    (scr scr' : Nat → Bool)
    (hscr' : ∀ q, scr' q = xor (spriteHits ram i xc yc n q) (scr q))
    (hink : spriteInk ram i n = true)
    (hcol : spriteCollides scr ram i xc yc n = false) :
    spriteCollides scr' ram i xc yc n = true := by
  rw [spriteInk, List.any_eq_true] at hink
  obtain ⟨yl, hyl, hrow⟩ := hink
  rw [List.any_eq_true] at hrow
  obtain ⟨xl, hxl, hbit⟩ := hrow
  rw [spriteCollides, List.any_eq_true]
  refine ⟨yl, hyl, ?_⟩
  rw [rowCollides, List.any_eq_true]
  refine ⟨xl, hxl, ?_⟩
  rw [Bool.and_eq_true]
  refine ⟨hbit, ?_⟩
  rw [hscr']
  have hhit : spriteHits ram i xc yc n
      ((xc + xl) % 64 + 64 * ((yc + yl) % 32)) = true := by
    rw [spriteHits, List.any_eq_true]
    refine ⟨yl, hyl, ?_⟩
    rw [rowHits, List.any_eq_true]
    exact ⟨xl, hxl, by simp [hbit]⟩
  have hoff : scr ((xc + xl) % 64 + 64 * ((yc + yl) % 32)) = false := by
    rw [spriteCollides, List.any_eq_false] at hcol
    have h5 := hcol yl hyl
    by_contra hsc
    rw [Bool.not_eq_false] at hsc
    refine h5 ?_
    rw [rowCollides, List.any_eq_true]
    exact ⟨xl, hxl, by rw [Bool.and_eq_true]; exact ⟨hbit, hsc⟩⟩
  rw [hhit, hoff]
  rfl

/-- Claim C6 exactly as stated: for every state and in-memory sprite,
drawing it twice restores the display and the second draw reports V[F] = 1. -/
def claimC6Statement : Prop :=
  ∀ rnd rnd' s op, (op &&& 0xF000) >>> 12 = 0xD →
    (op &&& 0x000F = 0 ∨ s.i_reg + (op &&& 0x000F) ≤ 4096) →
    ∃ s₂, drawTwice rnd rnd' s op = .ok s₂ ∧
      (∀ q, s₂.screen q = s.screen q) ∧ s₂.v_reg 15 = 1

/-- Concrete machine refuting claim C6 as written: the one-row sprite at
`ram[768]` is the zero byte, so neither draw toggles or collides with
anything and the second draw leaves V[F] = 0. -/
def c6s : Emu := { Emu.new with i_reg := 768 }

/-- Claim C6: corrected.  As stated it fails on `c6s` with opcode `0xD011`
(an all-zero sprite row): the second draw sets V[F] = 0, not 1. -/
theorem claimC6_counterexample : ¬ claimC6Statement := by
  intro h
  obtain ⟨s₂, hexec, -, hflag⟩ := h 0 0 c6s 0xD011 (by decide) (Or.inr (by decide))
  rw [show drawTwice 0 0 c6s 0xD011 = (Except.ok { c6s with
      v_reg := Function.update (Function.update c6s.v_reg 15 0) 15 0 }
      : Except Panic Emu) from rfl] at hexec
  injection hexec with hexec
  subst hexec
  revert hflag
  decide

/-- Claim C6, amended: with X ≠ 15 and Y ≠ 15 (so the V[F] write of the
first draw does not move the sprite), the identical DXYN executed twice
restores the display; and when the sprite has at least one set bit and the
first draw reported no collision, the second draw sets V[F] = 1. -/
theorem dxyn_draw_twice (rnd rnd' : Nat) (s : Emu) (op : Nat)
    (h1 : (op &&& 0xF000) >>> 12 = 0xD)
    (hx : (op &&& 0x0F00) >>> 8 ≠ 15)
    (hy : (op &&& 0x00F0) >>> 4 ≠ 15)
    (hmem : op &&& 0x000F = 0 ∨ s.i_reg + (op &&& 0x000F) ≤ 4096) :
    ∃ s₁ s₂, execute rnd s op = .ok s₁ ∧ execute rnd' s₁ op = .ok s₂ ∧
      drawTwice rnd rnd' s op = .ok s₂ ∧
      (∀ q, s₂.screen q = s.screen q) ∧
      (spriteInk s.ram s.i_reg (op &&& 0x000F) = true →
        s₁.v_reg 15 = 0 → s₂.v_reg 15 = 1) := by
  obtain ⟨s₁, hE1, hram1, hi1, hscr1, hv1, hvf1⟩ :=
    execute_draw_parts rnd s op h1 hmem
  have hmem' : op &&& 0x000F = 0 ∨ s₁.i_reg + (op &&& 0x000F) ≤ 4096 := by
    rw [hi1]; exact hmem
  obtain ⟨s₂, hE2, hram2, hi2, hscr2, hv2, hvf2⟩ :=
    execute_draw_parts rnd' s₁ op h1 hmem'
  refine ⟨s₁, s₂, hE1, hE2, by simp [drawTwice, hE1, hE2], ?_, ?_⟩
  · intro q
    rw [hscr2 q, hram1, hi1, hv1 _ hx, hv1 _ hy, hscr1 q,
      ← Bool.xor_assoc, Bool.xor_self, Bool.false_xor]
  · intro hink hflag1
    rw [hvf2, hram1, hi1, hv1 _ hx, hv1 _ hy]
    rw [hvf1] at hflag1
    have hcol1 : spriteCollides s.screen s.ram s.i_reg
        (s.v_reg ((op &&& 0x0F00) >>> 8)) (s.v_reg ((op &&& 0x00F0) >>> 4))
        (op &&& 0x000F) = false := by
      by_contra hc
      rw [Bool.not_eq_false] at hc
      rw [hc] at hflag1
      simp at hflag1
    have hcol2 := spriteCollides_after_draw s.ram s.i_reg
      (s.v_reg ((op &&& 0x0F00) >>> 8)) (s.v_reg ((op &&& 0x00F0) >>> 4))
      (op &&& 0x000F) s.screen s₁.screen hscr1 hink hcol1
    rw [hcol2]
    rfl

/-- Witness for `dxyn_draw_twice` at the concrete input `c6s`, `0xD011`. -/
theorem dxyn_draw_twice_witness :
    ((0xD011 &&& 0xF000) >>> 12 = 0xD) ∧
    ((0xD011 &&& 0x0F00) >>> 8 ≠ 15) ∧ ((0xD011 &&& 0x00F0) >>> 4 ≠ 15) ∧
    (0xD011 &&& 0x000F = 0 ∨ c6s.i_reg + (0xD011 &&& 0x000F) ≤ 4096) ∧
    (∃ s₁ s₂, execute 0 c6s 0xD011 = .ok s₁ ∧ execute 0 s₁ 0xD011 = .ok s₂ ∧
      drawTwice 0 0 c6s 0xD011 = .ok s₂ ∧
      (∀ q, s₂.screen q = c6s.screen q) ∧
      (spriteInk c6s.ram c6s.i_reg (0xD011 &&& 0x000F) = true →
        s₁.v_reg 15 = 0 → s₂.v_reg 15 = 1)) :=
  ⟨by decide, by decide, by decide, Or.inr (by decide),
    dxyn_draw_twice 0 0 c6s 0xD011 (by decide) (by decide) (by decide)
      (Or.inr (by decide))⟩

/-! ## Claim C4: the 8XY6 / 8XYE shifts -/

/-- Claim C4 exactly as stated, for every X: 8XY6 puts the pre-shift low bit
in V[F] and the right-shifted value in V[X]; 8XYE puts the pre-shift high
bit in V[F] and the truncated left-shifted value in V[X]. -/
def claimC4Statement : Prop :=
  ∀ rnd s op, (op &&& 0xF000) >>> 12 = 8 →
    (op &&& 0x000F = 6 →
      ∃ s', execute rnd s op = .ok s' ∧
        s'.v_reg 15 = s.v_reg ((op &&& 0x0F00) >>> 8) &&& 1 ∧
        s'.v_reg ((op &&& 0x0F00) >>> 8) =
          s.v_reg ((op &&& 0x0F00) >>> 8) >>> 1) ∧
    (op &&& 0x000F = 0xE →
      ∃ s', execute rnd s op = .ok s' ∧
        s'.v_reg 15 = (s.v_reg ((op &&& 0x0F00) >>> 8) >>> 7) &&& 1 ∧
        s'.v_reg ((op &&& 0x0F00) >>> 8) =
          (s.v_reg ((op &&& 0x0F00) >>> 8) <<< 1) % 256)

/-- Concrete machine refuting claim C4 as written: `V[15] = 0x80`. -/
def c4s : Emu := { Emu.new with v_reg := Function.update Emu.new.v_reg 15 128 }

/-- Claim C4: corrected.  As stated it fails for X = 15: executing `8F0E` on
`c4s` leaves V[F] = 2 (the flag write happens first and is then shifted),
while the claim demands V[F] = pre-shift high bit = 1. -/
theorem claimC4_counterexample : ¬ claimC4Statement := by
  intro h
  obtain ⟨s', hexec, hflag, -⟩ := (h 0 c4s 0x8F0E (by decide)).2 (by decide)
  rw [show execute 0 c4s 0x8F0E = (Except.ok { c4s with
      v_reg := Function.update (Function.update c4s.v_reg 15 1) 15 2 }
      : Except Panic Emu) from rfl] at hexec
  injection hexec with hexec
  subst hexec
  revert hflag
  decide

/-- Claim C4, amended: for X ≠ 15 both shifts behave exactly as claimed;
8XY6 captures the pre-shift low bit of V[X] into V[F] for every X (the flag
write is last); for X = 15, 8XYE leaves V[F] = 2·(pre-shift high bit of
V[F]) because the flag is written first and then shifted. -/
theorem shifts_8xy6_8xye (rnd : Nat) (s : Emu) (op : Nat) :
    ((op &&& 0xF000) >>> 12 = 8 → op &&& 0x000F = 6 →
      ∃ s', execute rnd s op = .ok s' ∧
        s'.v_reg 15 = s.v_reg ((op &&& 0x0F00) >>> 8) &&& 1 ∧
        ((op &&& 0x0F00) >>> 8 ≠ 15 →
          s'.v_reg ((op &&& 0x0F00) >>> 8) =
            s.v_reg ((op &&& 0x0F00) >>> 8) >>> 1)) ∧
    ((op &&& 0xF000) >>> 12 = 8 → op &&& 0x000F = 0xE →
      ∃ s', execute rnd s op = .ok s' ∧
        ((op &&& 0x0F00) >>> 8 ≠ 15 →
          s'.v_reg 15 = (s.v_reg ((op &&& 0x0F00) >>> 8) >>> 7) &&& 1 ∧
          s'.v_reg ((op &&& 0x0F00) >>> 8) =
            (s.v_reg ((op &&& 0x0F00) >>> 8) <<< 1) % 256) ∧
        ((op &&& 0x0F00) >>> 8 = 15 →
          s'.v_reg 15 = (((s.v_reg 15 >>> 7) &&& 1) <<< 1) % 256)) := by
  constructor
  · intro h1 h4
    have hexec : execute rnd s op = .ok { s with
        v_reg := (Function.update (Function.update s.v_reg
          ((op &&& 0x0F00) >>> 8) (s.v_reg ((op &&& 0x0F00) >>> 8) >>> 1)) 15
          (s.v_reg ((op &&& 0x0F00) >>> 8) &&& 1)) } := by
      simp [execute, h1, h4]
    refine ⟨_, hexec, ?_, ?_⟩
    · show Function.update (Function.update s.v_reg
        ((op &&& 0x0F00) >>> 8) (s.v_reg ((op &&& 0x0F00) >>> 8) >>> 1)) 15
        (s.v_reg ((op &&& 0x0F00) >>> 8) &&& 1) 15 = _
      rw [Function.update_same]
    · intro hx
      show Function.update (Function.update s.v_reg
        ((op &&& 0x0F00) >>> 8) (s.v_reg ((op &&& 0x0F00) >>> 8) >>> 1)) 15
        (s.v_reg ((op &&& 0x0F00) >>> 8) &&& 1) ((op &&& 0x0F00) >>> 8) = _
      rw [Function.update_noteq hx, Function.update_same]
  · intro h1 h4
    have hexec : execute rnd s op = .ok { s with
        v_reg := (Function.update (Function.update s.v_reg 15
          ((s.v_reg ((op &&& 0x0F00) >>> 8) >>> 7) &&& 1))
          ((op &&& 0x0F00) >>> 8)
          ((Function.update s.v_reg 15
            ((s.v_reg ((op &&& 0x0F00) >>> 8) >>> 7) &&& 1)
            ((op &&& 0x0F00) >>> 8) <<< 1) % 256)) } := by
      simp [execute, h1, h4]
    refine ⟨_, hexec, ?_, ?_⟩
    · intro hx
      constructor
      · show Function.update (Function.update s.v_reg 15
          ((s.v_reg ((op &&& 0x0F00) >>> 8) >>> 7) &&& 1))
          ((op &&& 0x0F00) >>> 8)
          ((Function.update s.v_reg 15
            ((s.v_reg ((op &&& 0x0F00) >>> 8) >>> 7) &&& 1)
            ((op &&& 0x0F00) >>> 8) <<< 1) % 256) 15 = _
        rw [Function.update_noteq (fun h => hx h.symm), Function.update_same]
      · show Function.update (Function.update s.v_reg 15
          ((s.v_reg ((op &&& 0x0F00) >>> 8) >>> 7) &&& 1))
          ((op &&& 0x0F00) >>> 8)
          ((Function.update s.v_reg 15
            ((s.v_reg ((op &&& 0x0F00) >>> 8) >>> 7) &&& 1)
            ((op &&& 0x0F00) >>> 8) <<< 1) % 256) ((op &&& 0x0F00) >>> 8) = _
        rw [Function.update_same, Function.update_noteq hx]
    · intro hx
      rw [hx] at hexec ⊢
      show Function.update (Function.update s.v_reg 15
          ((s.v_reg 15 >>> 7) &&& 1)) 15
          ((Function.update s.v_reg 15 ((s.v_reg 15 >>> 7) &&& 1) 15 <<< 1)
            % 256) 15 = _
      rw [Function.update_same, Function.update_same]

/-- Witness for `shifts_8xy6_8xye` at `c4s` with opcodes `0x8F06`/`0x8F0E`. -/
theorem shifts_8xy6_8xye_witness :
    ((0x8F06 &&& 0xF000) >>> 12 = 8 ∧ 0x8F06 &&& 0x000F = 6 ∧
      ∃ s', execute 0 c4s 0x8F06 = .ok s' ∧
        s'.v_reg 15 = c4s.v_reg ((0x8F06 &&& 0x0F00) >>> 8) &&& 1 ∧
        ((0x8F06 &&& 0x0F00) >>> 8 ≠ 15 →
          s'.v_reg ((0x8F06 &&& 0x0F00) >>> 8) =
            c4s.v_reg ((0x8F06 &&& 0x0F00) >>> 8) >>> 1)) ∧
    ((0x8F0E &&& 0xF000) >>> 12 = 8 ∧ 0x8F0E &&& 0x000F = 0xE ∧
      ∃ s', execute 0 c4s 0x8F0E = .ok s' ∧
        ((0x8F0E &&& 0x0F00) >>> 8 ≠ 15 →
          s'.v_reg 15 = (c4s.v_reg ((0x8F0E &&& 0x0F00) >>> 8) >>> 7) &&& 1 ∧
          s'.v_reg ((0x8F0E &&& 0x0F00) >>> 8) =
            (c4s.v_reg ((0x8F0E &&& 0x0F00) >>> 8) <<< 1) % 256) ∧
        ((0x8F0E &&& 0x0F00) >>> 8 = 15 →
          s'.v_reg 15 = (((c4s.v_reg 15 >>> 7) &&& 1) <<< 1) % 256)) :=
  ⟨⟨by decide, by decide, (shifts_8xy6_8xye 0 c4s 0x8F06).1 (by decide) (by decide)⟩,
   ⟨by decide, by decide, (shifts_8xy6_8xye 0 c4s 0x8F0E).2 (by decide) (by decide)⟩⟩

/-! ## Claim C5: the 8XY4 / 8XY5 arithmetic flags -/

/-- Claim C5 exactly as stated, for every X: 8XY4 leaves V[X] = sum mod 256
and V[F] = carry; 8XY5 leaves V[X] = wrapped difference and V[F] = borrow
flag, all from the pre-operation values. -/
def claimC5Statement : Prop :=
  ∀ rnd s op, (op &&& 0xF000) >>> 12 = 8 →
    (op &&& 0x000F = 4 →
      ∃ s', execute rnd s op = .ok s' ∧
        s'.v_reg ((op &&& 0x0F00) >>> 8) =
          (s.v_reg ((op &&& 0x0F00) >>> 8) +
            s.v_reg ((op &&& 0x00F0) >>> 4)) % 256 ∧
        s'.v_reg 15 = (if 255 < s.v_reg ((op &&& 0x0F00) >>> 8) +
          s.v_reg ((op &&& 0x00F0) >>> 4) then 1 else 0)) ∧
    (op &&& 0x000F = 5 →
      ∃ s', execute rnd s op = .ok s' ∧
        s'.v_reg ((op &&& 0x0F00) >>> 8) =
          (s.v_reg ((op &&& 0x0F00) >>> 8) + 256 -
            s.v_reg ((op &&& 0x00F0) >>> 4)) % 256 ∧
        s'.v_reg 15 = (if s.v_reg ((op &&& 0x0F00) >>> 8) <
          s.v_reg ((op &&& 0x00F0) >>> 4) then 0 else 1))

/-- Concrete machine refuting claim C5 as written: `V[15] = 5`, `V[0] = 3`. -/
def c5s : Emu :=
  { Emu.new with
    v_reg := Function.update (Function.update Emu.new.v_reg 15 5) 0 3 }

/-- Claim C5: corrected.  As stated it fails for X = 15: executing `8F04` on
`c5s` leaves V[F] = 0 (the carry flag overwrites the sum), while the claim
demands V[X] = V[F] = (5 + 3) mod 256 = 8. -/
theorem claimC5_counterexample : ¬ claimC5Statement := by
  intro h
  obtain ⟨s', hexec, hval, -⟩ := (h 0 c5s 0x8F04 (by decide)).1 (by decide)
  rw [show execute 0 c5s 0x8F04 = (Except.ok { c5s with
      v_reg := Function.update (Function.update c5s.v_reg 15 8) 15 0 }
      : Except Panic Emu) from rfl] at hexec
  injection hexec with hexec
  subst hexec
  revert hval
  decide

/-- Claim C5, amended: the V[F] flags are always as claimed (the flag write
is last), and for X ≠ 15 the arithmetic results in V[X] are as claimed; for
X = 15 the arithmetic result is discarded, V[F] ending as the flag. -/
theorem add_sub_8xy4_8xy5 (rnd : Nat) (s : Emu) (op : Nat) :
    ((op &&& 0xF000) >>> 12 = 8 → op &&& 0x000F = 4 →
      ∃ s', execute rnd s op = .ok s' ∧
        s'.v_reg 15 = (if 255 < s.v_reg ((op &&& 0x0F00) >>> 8) +
          s.v_reg ((op &&& 0x00F0) >>> 4) then 1 else 0) ∧
        ((op &&& 0x0F00) >>> 8 ≠ 15 →
          s'.v_reg ((op &&& 0x0F00) >>> 8) =
            (s.v_reg ((op &&& 0x0F00) >>> 8) +
              s.v_reg ((op &&& 0x00F0) >>> 4)) % 256)) ∧
    ((op &&& 0xF000) >>> 12 = 8 → op &&& 0x000F = 5 →
      ∃ s', execute rnd s op = .ok s' ∧
        s'.v_reg 15 = (if s.v_reg ((op &&& 0x0F00) >>> 8) <
          s.v_reg ((op &&& 0x00F0) >>> 4) then 0 else 1) ∧
        ((op &&& 0x0F00) >>> 8 ≠ 15 →
          s'.v_reg ((op &&& 0x0F00) >>> 8) =
            (s.v_reg ((op &&& 0x0F00) >>> 8) + 256 -
              s.v_reg ((op &&& 0x00F0) >>> 4)) % 256)) := by
  constructor
  · intro h1 h4
    have hexec : execute rnd s op = .ok { s with
        v_reg := (Function.update (Function.update s.v_reg
          ((op &&& 0x0F00) >>> 8)
          ((s.v_reg ((op &&& 0x0F00) >>> 8) +
            s.v_reg ((op &&& 0x00F0) >>> 4)) % 256)) 15
          (if 255 < s.v_reg ((op &&& 0x0F00) >>> 8) +
            s.v_reg ((op &&& 0x00F0) >>> 4) then 1 else 0)) } := by
      simp [execute, h1, h4]
    refine ⟨_, hexec, ?_, ?_⟩
    · show Function.update (Function.update s.v_reg ((op &&& 0x0F00) >>> 8)
        ((s.v_reg ((op &&& 0x0F00) >>> 8) +
          s.v_reg ((op &&& 0x00F0) >>> 4)) % 256)) 15
        (if 255 < s.v_reg ((op &&& 0x0F00) >>> 8) +
          s.v_reg ((op &&& 0x00F0) >>> 4) then 1 else 0) 15 = _
      rw [Function.update_same]
    · intro hx
      show Function.update (Function.update s.v_reg ((op &&& 0x0F00) >>> 8)
        ((s.v_reg ((op &&& 0x0F00) >>> 8) +
          s.v_reg ((op &&& 0x00F0) >>> 4)) % 256)) 15
        (if 255 < s.v_reg ((op &&& 0x0F00) >>> 8) +
          s.v_reg ((op &&& 0x00F0) >>> 4) then 1 else 0)
        ((op &&& 0x0F00) >>> 8) = _
      rw [Function.update_noteq hx, Function.update_same]
  · intro h1 h4
    have hexec : execute rnd s op = .ok { s with
        v_reg := (Function.update (Function.update s.v_reg
          ((op &&& 0x0F00) >>> 8)
          ((s.v_reg ((op &&& 0x0F00) >>> 8) + 256 -
            s.v_reg ((op &&& 0x00F0) >>> 4)) % 256)) 15
          (if s.v_reg ((op &&& 0x0F00) >>> 8) <
            s.v_reg ((op &&& 0x00F0) >>> 4) then 0 else 1)) } := by
      simp [execute, h1, h4]
    refine ⟨_, hexec, ?_, ?_⟩
    · show Function.update (Function.update s.v_reg ((op &&& 0x0F00) >>> 8)
        ((s.v_reg ((op &&& 0x0F00) >>> 8) + 256 -
          s.v_reg ((op &&& 0x00F0) >>> 4)) % 256)) 15
        (if s.v_reg ((op &&& 0x0F00) >>> 8) <
          s.v_reg ((op &&& 0x00F0) >>> 4) then 0 else 1) 15 = _
      rw [Function.update_same]
    · intro hx
      show Function.update (Function.update s.v_reg ((op &&& 0x0F00) >>> 8)
        ((s.v_reg ((op &&& 0x0F00) >>> 8) + 256 -
          s.v_reg ((op &&& 0x00F0) >>> 4)) % 256)) 15
        (if s.v_reg ((op &&& 0x0F00) >>> 8) <
          s.v_reg ((op &&& 0x00F0) >>> 4) then 0 else 1)
        ((op &&& 0x0F00) >>> 8) = _
      rw [Function.update_noteq hx, Function.update_same]

/-- Witness for `add_sub_8xy4_8xy5` at `c5s` with opcodes `0x8104`/`0x8105`. -/
theorem add_sub_8xy4_8xy5_witness :
    ((0x8104 &&& 0xF000) >>> 12 = 8 ∧ 0x8104 &&& 0x000F = 4 ∧
      ∃ s', execute 0 c5s 0x8104 = .ok s' ∧
        s'.v_reg 15 = (if 255 < c5s.v_reg ((0x8104 &&& 0x0F00) >>> 8) +
          c5s.v_reg ((0x8104 &&& 0x00F0) >>> 4) then 1 else 0) ∧
        ((0x8104 &&& 0x0F00) >>> 8 ≠ 15 →
          s'.v_reg ((0x8104 &&& 0x0F00) >>> 8) =
            (c5s.v_reg ((0x8104 &&& 0x0F00) >>> 8) +
              c5s.v_reg ((0x8104 &&& 0x00F0) >>> 4)) % 256)) ∧
    ((0x8105 &&& 0xF000) >>> 12 = 8 ∧ 0x8105 &&& 0x000F = 5 ∧
      ∃ s', execute 0 c5s 0x8105 = .ok s' ∧
        s'.v_reg 15 = (if c5s.v_reg ((0x8105 &&& 0x0F00) >>> 8) <
          c5s.v_reg ((0x8105 &&& 0x00F0) >>> 4) then 0 else 1) ∧
        ((0x8105 &&& 0x0F00) >>> 8 ≠ 15 →
          s'.v_reg ((0x8105 &&& 0x0F00) >>> 8) =
            (c5s.v_reg ((0x8105 &&& 0x0F00) >>> 8) + 256 -
              c5s.v_reg ((0x8105 &&& 0x00F0) >>> 4)) % 256)) :=
  ⟨⟨by decide, by decide, (add_sub_8xy4_8xy5 0 c5s 0x8104).1 (by decide) (by decide)⟩,
   ⟨by decide, by decide, (add_sub_8xy4_8xy5 0 c5s 0x8105).2 (by decide) (by decide)⟩⟩

/-! ## Claim C10: frame conditions of FX55 / FX65 -/

/-- Claim C10, confirmed: with `i_reg + X < 4096`, FX55 (store V0..=VX)
leaves the index register and all general registers unchanged, and FX65
(load V0..=VX) leaves the index register and all memory unchanged. -/
theorem fx55_fx65_frame (rnd : Nat) (s : Emu) (op : Nat) :
    ((op &&& 0xF000) >>> 12 = 0xF → (op &&& 0x00F0) >>> 4 = 5 →
      op &&& 0x000F = 5 → s.i_reg + ((op &&& 0x0F00) >>> 8) < 4096 →
      ∃ s', execute rnd s op = .ok s' ∧ s'.i_reg = s.i_reg ∧
        s'.v_reg = s.v_reg) ∧
    ((op &&& 0xF000) >>> 12 = 0xF → (op &&& 0x00F0) >>> 4 = 6 →
      op &&& 0x000F = 5 → s.i_reg + ((op &&& 0x0F00) >>> 8) < 4096 →
      ∃ s', execute rnd s op = .ok s' ∧ s'.i_reg = s.i_reg ∧
        s'.ram = s.ram) := by
  constructor
  · intro h1 h3 h4 hg
    have hexec : execute rnd s op = .ok { s with
        ram := ((List.range (((op &&& 0x0F00) >>> 8) + 1)).foldl
          (fun r idx => Function.update r (s.i_reg + idx) (s.v_reg idx))
          s.ram) } := by
      simp [execute, h1, h3, h4, hg]
    exact ⟨_, hexec, rfl, rfl⟩
  · intro h1 h3 h4 hg
    have hexec : execute rnd s op = .ok { s with
        v_reg := ((List.range (((op &&& 0x0F00) >>> 8) + 1)).foldl
          (fun v idx => Function.update v idx (s.ram (s.i_reg + idx)))
          s.v_reg) } := by
      simp [execute, h1, h3, h4, hg]
    exact ⟨_, hexec, rfl, rfl⟩

/-- Witness for `fx55_fx65_frame` on the fresh machine with opcodes
`0xF155` and `0xF165`. -/
theorem fx55_fx65_frame_witness :
    ((0xF155 &&& 0xF000) >>> 12 = 0xF ∧ (0xF155 &&& 0x00F0) >>> 4 = 5 ∧
      0xF155 &&& 0x000F = 5 ∧
      Emu.new.i_reg + ((0xF155 &&& 0x0F00) >>> 8) < 4096 ∧
      ∃ s', execute 0 Emu.new 0xF155 = .ok s' ∧ s'.i_reg = Emu.new.i_reg ∧
        s'.v_reg = Emu.new.v_reg) ∧
    ((0xF165 &&& 0xF000) >>> 12 = 0xF ∧ (0xF165 &&& 0x00F0) >>> 4 = 6 ∧
      0xF165 &&& 0x000F = 5 ∧
      Emu.new.i_reg + ((0xF165 &&& 0x0F00) >>> 8) < 4096 ∧
      ∃ s', execute 0 Emu.new 0xF165 = .ok s' ∧ s'.i_reg = Emu.new.i_reg ∧
        s'.ram = Emu.new.ram) :=
  ⟨⟨by decide, by decide, by decide, by decide,
    (fx55_fx65_frame 0 Emu.new 0xF155).1 (by decide) (by decide) (by decide)
      (by decide)⟩,
   ⟨by decide, by decide, by decide, by decide,
    (fx55_fx65_frame 0 Emu.new 0xF165).2 (by decide) (by decide) (by decide)
      (by decide)⟩⟩

/-! ## Claim C3: the FX0A key wait over a tick -/

/-- A tick whose fetch is in bounds is: advance `pc` by 2, then execute the
fetched opcode. -/
theorem tick_eq (rnd : Nat) (s : Emu) (hpc : s.pc + 1 < 4096) :
    tick rnd s = execute rnd { s with pc := s.pc + 2 } (fetchedOp s) := by
  have h0 : s.pc < 4096 := by omega
  simp [tick, Emu.fetch, fetchedOp, hpc, h0]

/-- Claim C3, confirmed: a tick executing FX0A with no key pressed leaves
`pc` (net) and all registers unchanged; with keys pressed it stores the
lowest-indexed pressed key in V[X] and leaves `pc` advanced by 2. -/
theorem fx0a_key_wait (rnd : Nat) (s : Emu)
    (hpc : s.pc + 1 < 4096)
    (h1 : (fetchedOp s &&& 0xF000) >>> 12 = 0xF)
    (h3 : (fetchedOp s &&& 0x00F0) >>> 4 = 0)
    (h4 : fetchedOp s &&& 0x000F = 0xA) :
    ((∀ j, j < 16 → s.keys j = false) →
      ∃ s', tick rnd s = .ok s' ∧ s'.pc = s.pc ∧ s'.v_reg = s.v_reg) ∧
    (∀ k, k < 16 → s.keys k = true → (∀ j, j < k → s.keys j = false) →
      ∃ s', tick rnd s = .ok s' ∧ s'.pc = s.pc + 2 ∧
        s'.v_reg = Function.update s.v_reg ((fetchedOp s &&& 0x0F00) >>> 8) k) := by
  have htick := tick_eq rnd s hpc
  constructor
  · intro hk
    have hnone : (List.range 16).find? (fun i => s.keys i) = none := by
      rw [List.find?_eq_none]
      intro x hx
      rw [List.mem_range] at hx
      simp [hk x hx]
    have hexec : execute rnd { s with pc := s.pc + 2 } (fetchedOp s) =
        .ok { s with pc := s.pc + 2 - 2 } := by
      simp [execute, h1, h3, h4, hnone]
    refine ⟨_, htick.trans hexec, ?_, rfl⟩
    show s.pc + 2 - 2 = s.pc
    omega
  · intro k hk16 hkey hmin
    have hsome : (List.range 16).find? (fun i => s.keys i) = some k := by
      rw [List.range_eq_range', List.find?_range'_eq_some]
      refine ⟨hkey, ?_, ?_⟩
      · rw [List.mem_range'_1]
        omega
      · intro j _ hjk
        simp [hmin j hjk]
    have hexec : execute rnd { s with pc := s.pc + 2 } (fetchedOp s) =
        .ok { s with pc := s.pc + 2, v_reg :=
          Function.update s.v_reg ((fetchedOp s &&& 0x0F00) >>> 8) k } := by
      simp [execute, h1, h3, h4, hsome]
    exact ⟨_, htick.trans hexec, rfl, rfl⟩

/-- Machine whose next opcode is `F00A` and no key is pressed. -/
def c3s : Emu :=
  { Emu.new with
    ram := Function.update (Function.update Emu.new.ram 512 0xF0) 513 0x0A }

/-- The same machine with key 3 held down. -/
def c3k : Emu := { c3s with keys := Function.update c3s.keys 3 true }

/-- Witness for `fx0a_key_wait`: both the no-key and the pressed-key case
at concrete machines. -/
theorem fx0a_key_wait_witness :
    (c3s.pc + 1 < 4096 ∧ (fetchedOp c3s &&& 0xF000) >>> 12 = 0xF ∧
      (fetchedOp c3s &&& 0x00F0) >>> 4 = 0 ∧ fetchedOp c3s &&& 0x000F = 0xA ∧
      (∀ j, j < 16 → c3s.keys j = false) ∧
      ∃ s', tick 0 c3s = .ok s' ∧ s'.pc = c3s.pc ∧ s'.v_reg = c3s.v_reg) ∧
    (c3k.pc + 1 < 4096 ∧ (fetchedOp c3k &&& 0xF000) >>> 12 = 0xF ∧
      (fetchedOp c3k &&& 0x00F0) >>> 4 = 0 ∧ fetchedOp c3k &&& 0x000F = 0xA ∧
      3 < 16 ∧ c3k.keys 3 = true ∧ (∀ j, j < 3 → c3k.keys j = false) ∧
      ∃ s', tick 0 c3k = .ok s' ∧ s'.pc = c3k.pc + 2 ∧
        s'.v_reg = Function.update c3k.v_reg ((fetchedOp c3k &&& 0x0F00) >>> 8) 3) :=
  ⟨⟨by decide, by decide, by decide, by decide, by decide,
    (fx0a_key_wait 0 c3s (by decide) (by decide) (by decide) (by decide)).1
      (by decide)⟩,
   ⟨by decide, by decide, by decide, by decide, by decide, by decide, by decide,
    (fx0a_key_wait 0 c3k (by decide) (by decide) (by decide) (by decide)).2
      3 (by decide) (by decide) (by decide)⟩⟩

/-! ## Claim C7: CALL / RET stack round trip -/

/-- Claim C7, confirmed: a tick fetching 2NNN with fewer than 16 return
addresses on the stack pushes the post-fetch `pc` and jumps to NNN; any
subsequent tick fetching 00EE on a state with that stack and stack pointer
returns to the instruction after the call (`pc` = call-site `pc` + 2). -/
theorem call_ret_round_trip (rnd rnd' : Nat) (s : Emu)
    (hpc : s.pc + 1 < 4096)
    (h1 : (fetchedOp s &&& 0xF000) >>> 12 = 2)
    (hsp : s.sp < 16) :
    ∃ s₁, tick rnd s = .ok s₁ ∧
      s₁.pc = fetchedOp s &&& 0xFFF ∧
      s₁.sp = s.sp + 1 ∧
      s₁.stack = Function.update s.stack s.sp (s.pc + 2) ∧
      (∀ t, t.sp = s.sp + 1 →
        t.stack = Function.update s.stack s.sp (s.pc + 2) →
        t.pc + 1 < 4096 →
        (fetchedOp t &&& 0xF000) >>> 12 = 0 →
        (fetchedOp t &&& 0x0F00) >>> 8 = 0 →
        (fetchedOp t &&& 0x00F0) >>> 4 = 0xE →
        fetchedOp t &&& 0x000F = 0xE →
        ∃ t', tick rnd' t = .ok t' ∧ t'.pc = s.pc + 2) := by
  have htick := tick_eq rnd s hpc
  have hexec : execute rnd { s with pc := s.pc + 2 } (fetchedOp s) =
      .ok { s with
        pc := fetchedOp s &&& 0xFFF
        sp := s.sp + 1
        stack := Function.update s.stack s.sp (s.pc + 2) } := by
    simp [execute, h1, Emu.push, hsp]
  refine ⟨_, htick.trans hexec, rfl, rfl, rfl, ?_⟩
  intro t hspt hstackt hpct hd1 hd2 hd3 hd4
  have htick2 := tick_eq rnd' t hpct
  have hne : ¬ t.sp = 0 := by omega
  have h16 : t.sp - 1 < 16 := by omega
  have hexec2 : execute rnd' { t with pc := t.pc + 2 } (fetchedOp t) =
      .ok { t with pc := t.stack (t.sp - 1), sp := t.sp - 1 } := by
    simp [execute, hd1, hd2, hd3, hd4, Emu.pop, hne, h16]
  refine ⟨_, htick2.trans hexec2, ?_⟩
  show t.stack (t.sp - 1) = s.pc + 2
  rw [hstackt, hspt]
  simp

/-- Witness for `call_ret_round_trip` on the fresh machine with the opcode
`0x2200` placed at the program counter. -/
theorem call_ret_round_trip_witness :
    (Emu.new.pc + 1 < 4096 ∧
      (fetchedOp { Emu.new with
        ram := Function.update Emu.new.ram 512 0x22 } &&& 0xF000) >>> 12 = 2 ∧
      Emu.new.sp < 16) ∧
    (∃ s₁, tick 0 { Emu.new with
        ram := Function.update Emu.new.ram 512 0x22 } = .ok s₁ ∧
      s₁.pc = fetchedOp { Emu.new with
        ram := Function.update Emu.new.ram 512 0x22 } &&& 0xFFF ∧
      s₁.sp = Emu.new.sp + 1 ∧
      s₁.stack = Function.update Emu.new.stack Emu.new.sp (Emu.new.pc + 2) ∧
      (∀ t, t.sp = Emu.new.sp + 1 →
        t.stack = Function.update Emu.new.stack Emu.new.sp (Emu.new.pc + 2) →
        t.pc + 1 < 4096 →
        (fetchedOp t &&& 0xF000) >>> 12 = 0 →
        (fetchedOp t &&& 0x0F00) >>> 8 = 0 →
        (fetchedOp t &&& 0x00F0) >>> 4 = 0xE →
        fetchedOp t &&& 0x000F = 0xE →
        ∃ t', tick 0 t = .ok t' ∧ t'.pc = Emu.new.pc + 2)) :=
  ⟨⟨by decide, by decide, by decide⟩,
    call_ret_round_trip 0 0 { Emu.new with
      ram := Function.update Emu.new.ram 512 0x22 }
      (by decide) (by decide) (by decide)⟩

/-! ## Claim C8: `load` and oversized programs -/

/-- `storeBytes` leaves addresses below the write window unchanged. -/
theorem storeBytes_lt : ∀ (data : List Nat) (ram : Nat → Nat) (addr a : Nat),
    a < addr → storeBytes ram addr data a = ram a := by
  intro data
  induction data with
  | nil => intro ram addr a _; rfl
  | cons b rest ih =>
    intro ram addr a ha
    show storeBytes (Function.update ram addr b) (addr + 1) rest a = ram a
    rw [ih _ _ _ (by omega), Function.update_noteq (by omega)]

/-- `storeBytes` leaves addresses at or beyond the write window unchanged. -/
theorem storeBytes_ge : ∀ (data : List Nat) (ram : Nat → Nat) (addr a : Nat),
    addr + data.length ≤ a → storeBytes ram addr data a = ram a := by
  intro data
  induction data with
  | nil => intro ram addr a _; rfl
  | cons b rest ih =>
    intro ram addr a ha
    rw [List.length_cons] at ha
    show storeBytes (Function.update ram addr b) (addr + 1) rest a = ram a
    rw [ih _ _ _ (by omega), Function.update_noteq (by omega)]

/-- `storeBytes` writes byte `k` of the data at `addr + k`. -/
theorem storeBytes_at : ∀ (data : List Nat) (ram : Nat → Nat) (addr k : Nat),
    k < data.length → storeBytes ram addr data (addr + k) = data.getD k 0 := by
  intro data
  induction data with
  | nil => intro ram addr k hk; simp at hk
  | cons b rest ih =>
    intro ram addr k hk
    cases k with
    | zero =>
      show storeBytes (Function.update ram addr b) (addr + 1) rest (addr + 0) = _
      rw [storeBytes_lt rest _ _ _ (by omega)]
      simp
    | succ k' =>
      rw [List.length_cons] at hk
      show storeBytes (Function.update ram addr b) (addr + 1) rest
        (addr + (k' + 1)) = _
      have harr : addr + (k' + 1) = (addr + 1) + k' := by omega
      rw [harr, ih _ _ _ (by omega)]
      simp

/-- Claim C8 exactly as stated on the failure side: an oversized program is
signalled without the process aborting.  In this embedding every `Panic`
value is a Rust panic (process abort), and the source's `load` has no error
channel at all, so the claim says `load` never produces a `Panic`. -/
def claimC8Statement : Prop :=
  ∀ s data, 4096 < 0x200 + data.length →
    ∀ p : Panic, load s data ≠ .error p

/-- Claim C8: corrected.  A 3585-byte program does not fit
(`0x200 + 3585 = 4097`) and `load` panics via the slice bounds check
instead of returning a `CapacityExceeded` value. -/
theorem claimC8_counterexample : ¬ claimC8Statement := by
  intro h
  refine h Emu.new (List.replicate 3585 0)
    (by simp only [List.length_replicate]; omega)
    Panic.sliceIndexOutOfBounds ?_
  show load Emu.new (List.replicate 3585 0) = .error Panic.sliceIndexOutOfBounds
  simp only [load]
  rw [if_neg (by simp only [List.length_replicate]; omega)]

/-- Claim C8, amended: when the program fits, `load` copies it to
`ram[0x200..]` and changes nothing else; when it does not fit, `load`
panics (Rust slice bounds check) before writing anything — there is no
`CapacityExceeded` result value. -/
theorem load_spec (s : Emu) (data : List Nat) :
    (0x200 + data.length ≤ 4096 →
      ∃ s', load s data = .ok s' ∧
        (∀ k, k < data.length → s'.ram (0x200 + k) = data.getD k 0) ∧
        (∀ a, a < 0x200 ∨ 0x200 + data.length ≤ a → s'.ram a = s.ram a) ∧
        s'.pc = s.pc ∧ s'.screen = s.screen ∧ s'.v_reg = s.v_reg ∧
        s'.i_reg = s.i_reg ∧ s'.sp = s.sp ∧ s'.stack = s.stack ∧
        s'.keys = s.keys ∧ s'.dt = s.dt ∧ s'.st = s.st) ∧
    (4096 < 0x200 + data.length →
      load s data = .error Panic.sliceIndexOutOfBounds) := by
  constructor
  · intro hfit
    have hexec : load s data =
        .ok { s with ram := storeBytes s.ram 0x200 data } := by
      simp [load, hfit]
    refine ⟨_, hexec, ?_, ?_, rfl, rfl, rfl, rfl, rfl, rfl, rfl, rfl, rfl⟩
    · intro k hk
      exact storeBytes_at data s.ram 512 k hk
    · intro a ha
      rcases ha with h | h
      · exact storeBytes_lt data s.ram 512 a h
      · exact storeBytes_ge data s.ram 512 a h
  · intro hbig
    simp only [load]
    rw [if_neg (by omega)]

/-- Witness for `load_spec`: a three-byte program fits on the fresh
machine; a 3585-byte program panics. -/
theorem load_spec_witness :
    (0x200 + ([1, 2, 3] : List Nat).length ≤ 4096 ∧
      ∃ s', load Emu.new [1, 2, 3] = .ok s' ∧
        (∀ k, k < ([1, 2, 3] : List Nat).length →
          s'.ram (0x200 + k) = ([1, 2, 3] : List Nat).getD k 0) ∧
        (∀ a, a < 0x200 ∨ 0x200 + ([1, 2, 3] : List Nat).length ≤ a →
          s'.ram a = Emu.new.ram a) ∧
        s'.pc = Emu.new.pc ∧ s'.screen = Emu.new.screen ∧
        s'.v_reg = Emu.new.v_reg ∧ s'.i_reg = Emu.new.i_reg ∧
        s'.sp = Emu.new.sp ∧ s'.stack = Emu.new.stack ∧
        s'.keys = Emu.new.keys ∧ s'.dt = Emu.new.dt ∧ s'.st = Emu.new.st) ∧
    (4096 < 0x200 + (List.replicate 3585 0).length ∧
      load Emu.new (List.replicate 3585 0) =
        .error Panic.sliceIndexOutOfBounds) :=
  ⟨⟨by decide, (load_spec Emu.new [1, 2, 3]).1 (by decide)⟩,
   ⟨by simp only [List.length_replicate]; omega,
    (load_spec Emu.new (List.replicate 3585 0)).2
      (by simp only [List.length_replicate]; omega)⟩⟩

/-! ## Claim C2: fault conditions -/

/-- No dispatch pattern of `execute` matches the opcode: the conjunction of
the negations of the 35 arm guards, in source order. -/
def unrecognizedOp (op : Nat) : Prop :=
  let digit1 := (op &&& 0xF000) >>> 12
  let digit2 := (op &&& 0x0F00) >>> 8
  let digit3 := (op &&& 0x00F0) >>> 4
  let digit4 := op &&& 0x000F
  ¬(digit1 = 0 ∧ digit2 = 0 ∧ digit3 = 0 ∧ digit4 = 0) ∧
  ¬(digit1 = 0 ∧ digit2 = 0 ∧ digit3 = 0xE ∧ digit4 = 0) ∧
  ¬(digit1 = 0 ∧ digit2 = 0 ∧ digit3 = 0xE ∧ digit4 = 0xE) ∧
  ¬digit1 = 1 ∧ ¬digit1 = 2 ∧ ¬digit1 = 3 ∧ ¬digit1 = 4 ∧ ¬digit1 = 5 ∧
  ¬digit1 = 6 ∧ ¬digit1 = 7 ∧
  ¬(digit1 = 8 ∧ digit4 = 0) ∧ ¬(digit1 = 8 ∧ digit4 = 1) ∧
  ¬(digit1 = 8 ∧ digit4 = 2) ∧ ¬(digit1 = 8 ∧ digit4 = 3) ∧
  ¬(digit1 = 8 ∧ digit4 = 4) ∧ ¬(digit1 = 8 ∧ digit4 = 5) ∧
  ¬(digit1 = 8 ∧ digit4 = 6) ∧ ¬(digit1 = 8 ∧ digit4 = 7) ∧
  ¬(digit1 = 8 ∧ digit4 = 0xE) ∧ ¬(digit1 = 9 ∧ digit4 = 0) ∧
  ¬digit1 = 0xA ∧ ¬digit1 = 0xB ∧ ¬digit1 = 0xC ∧ ¬digit1 = 0xD ∧
  ¬(digit1 = 0xE ∧ digit3 = 9 ∧ digit4 = 0xE) ∧
  ¬(digit1 = 0xE ∧ digit3 = 0xA ∧ digit4 = 1) ∧
  ¬(digit1 = 0xF ∧ digit3 = 0 ∧ digit4 = 7) ∧
  ¬(digit1 = 0xF ∧ digit3 = 0 ∧ digit4 = 0xA) ∧
  ¬(digit1 = 0xF ∧ digit3 = 1 ∧ digit4 = 5) ∧
  ¬(digit1 = 0xF ∧ digit3 = 1 ∧ digit4 = 8) ∧
  ¬(digit1 = 0xF ∧ digit3 = 1 ∧ digit4 = 0xE) ∧
  ¬(digit1 = 0xF ∧ digit3 = 2 ∧ digit4 = 9) ∧
  ¬(digit1 = 0xF ∧ digit3 = 3 ∧ digit4 = 3) ∧
  ¬(digit1 = 0xF ∧ digit3 = 5 ∧ digit4 = 5) ∧
  ¬(digit1 = 0xF ∧ digit3 = 6 ∧ digit4 = 5)

/-- Claim C2 exactly as stated in its refutable part: a fault condition is
surfaced as a result value to the host *rather than terminating the
process*.  In this embedding `.error (p : Panic)` is a Rust panic, i.e. the
process aborting — and the source's `tick`/`execute` return no error values
at all — so the claim entails that the fault conditions never produce a
`Panic`. -/
def claimC2Statement : Prop :=
  (∀ rnd s, 4096 ≤ s.pc + 1 → ∀ p : Panic, tick rnd s ≠ .error p) ∧
  (∀ rnd s op, unrecognizedOp op → ∀ p : Panic, execute rnd s op ≠ .error p)

/-- Claim C2: corrected.  A fetch at `pc = 4095` reads `ram[4096]` and the
process panics (`tick` aborts); no `MemoryFault` value reaches the host. -/
theorem claimC2_counterexample : ¬ claimC2Statement := by
  intro h
  exact h.1 0 { Emu.new with pc := 4095 } (by decide)
    Panic.ramIndexOutOfBounds rfl

/-- Claim C2, amended: every fault condition aborts deterministically with
a panic whose kind identifies the fault — out-of-range instruction fetch
and every out-of-bounds RAM access during execution (DXYN sprite rows,
FX33, FX55, FX65) panic with `ramIndexOutOfBounds`; an opcode matching no
dispatch pattern panics with `unimplementedOpcode`; the two are
distinguishable — but no `MemoryFault`/`UnknownOpcode` result value is
returned to the host. -/
theorem fault_panics :
    (∀ rnd s, 4096 ≤ s.pc + 1 →
      tick rnd s = .error Panic.ramIndexOutOfBounds) ∧
    (∀ rnd s op, unrecognizedOp op →
      execute rnd s op = .error Panic.unimplementedOpcode) ∧
    (∀ rnd s op, (op &&& 0xF000) >>> 12 = 0xD →
      ¬(op &&& 0x000F = 0 ∨ s.i_reg + (op &&& 0x000F) ≤ 4096) →
      execute rnd s op = .error Panic.ramIndexOutOfBounds) ∧
    (∀ rnd s op, (op &&& 0xF000) >>> 12 = 0xF → (op &&& 0x00F0) >>> 4 = 3 →
      op &&& 0x000F = 3 → ¬(s.i_reg + 2 < 4096) →
      execute rnd s op = .error Panic.ramIndexOutOfBounds) ∧
    (∀ rnd s op, (op &&& 0xF000) >>> 12 = 0xF → (op &&& 0x00F0) >>> 4 = 5 →
      op &&& 0x000F = 5 → ¬(s.i_reg + ((op &&& 0x0F00) >>> 8) < 4096) →
      execute rnd s op = .error Panic.ramIndexOutOfBounds) ∧
    (∀ rnd s op, (op &&& 0xF000) >>> 12 = 0xF → (op &&& 0x00F0) >>> 4 = 6 →
      op &&& 0x000F = 5 → ¬(s.i_reg + ((op &&& 0x0F00) >>> 8) < 4096) →
      execute rnd s op = .error Panic.ramIndexOutOfBounds) ∧
    Panic.ramIndexOutOfBounds ≠ Panic.unimplementedOpcode := by
  refine ⟨?_, ?_, ?_, ?_, ?_, ?_, by decide⟩
  · intro rnd s hpc
    by_cases h0 : s.pc < 4096
    · have h1 : ¬(s.pc + 1 < 4096) := by omega
      simp [tick, Emu.fetch, h0, h1]
    · simp [tick, Emu.fetch, h0]
  · intro rnd s op hop
    simp only [unrecognizedOp] at hop
    obtain ⟨u1, u2, u3, u4, u5, u6, u7, u8, u9, u10, u11, u12, u13, u14, u15,
      u16, u17, u18, u19, u20, u21, u22, u23, u24, u25, u26, u27, u28, u29,
      u30, u31, u32, u33, u34, u35⟩ := hop
    simp [execute, u1, u2, u3, u4, u5, u6, u7, u8, u9, u10, u11, u12, u13,
      u14, u15, u16, u17, u18, u19, u20, u21, u22, u23, u24, u25, u26, u27,
      u28, u29, u30, u31, u32, u33, u34, u35]
  · intro rnd s op h1 hg
    simp [execute, h1, hg]
  · intro rnd s op h1 h3 h4 hg
    simp [execute, h1, h3, h4, hg]
  · intro rnd s op h1 h3 h4 hg
    simp [execute, h1, h3, h4, hg]
  · intro rnd s op h1 h3 h4 hg
    simp [execute, h1, h3, h4, hg]

/-- Witness for `fault_panics` at concrete faulting machines: fetch at
`pc = 4095`, opcode `0xFFFF`, and out-of-range draws/stores/loads. -/
theorem fault_panics_witness :
    (4096 ≤ ({ Emu.new with pc := 4095 } : Emu).pc + 1 ∧
      tick 0 { Emu.new with pc := 4095 } =
        .error Panic.ramIndexOutOfBounds) ∧
    (unrecognizedOp 0xFFFF ∧
      execute 0 Emu.new 0xFFFF = .error Panic.unimplementedOpcode) ∧
    (¬(0xD001 &&& 0x000F = 0 ∨
        ({ Emu.new with i_reg := 4096 } : Emu).i_reg +
          (0xD001 &&& 0x000F) ≤ 4096) ∧
      execute 0 { Emu.new with i_reg := 4096 } 0xD001 =
        .error Panic.ramIndexOutOfBounds) ∧
    (¬(({ Emu.new with i_reg := 4094 } : Emu).i_reg + 2 < 4096) ∧
      execute 0 { Emu.new with i_reg := 4094 } 0xF033 =
        .error Panic.ramIndexOutOfBounds) ∧
    (¬(({ Emu.new with i_reg := 4096 } : Emu).i_reg +
        ((0xF055 &&& 0x0F00) >>> 8) < 4096) ∧
      execute 0 { Emu.new with i_reg := 4096 } 0xF055 =
        .error Panic.ramIndexOutOfBounds) ∧
    (¬(({ Emu.new with i_reg := 4096 } : Emu).i_reg +
        ((0xF065 &&& 0x0F00) >>> 8) < 4096) ∧
      execute 0 { Emu.new with i_reg := 4096 } 0xF065 =
        .error Panic.ramIndexOutOfBounds) :=
  ⟨⟨by decide, fault_panics.1 0 { Emu.new with pc := 4095 } (by decide)⟩,
   ⟨by
      simp only [unrecognizedOp]
      repeat' apply And.intro
      all_goals decide,
    fault_panics.2.1 0 Emu.new 0xFFFF
      (by
        simp only [unrecognizedOp]
        repeat' apply And.intro
        all_goals decide)⟩,
   ⟨by decide, fault_panics.2.2.1 0 { Emu.new with i_reg := 4096 } 0xD001
      (by decide) (by decide)⟩,
   ⟨by decide, fault_panics.2.2.2.1 0 { Emu.new with i_reg := 4094 } 0xF033
      (by decide) (by decide) (by decide) (by decide)⟩,
   ⟨by decide, fault_panics.2.2.2.2.1 0 { Emu.new with i_reg := 4096 } 0xF055
      (by decide) (by decide) (by decide) (by decide)⟩,
   ⟨by decide, fault_panics.2.2.2.2.2.1 0 { Emu.new with i_reg := 4096 } 0xF065
      (by decide) (by decide) (by decide) (by decide)⟩⟩

/-! ## Claim C9: program counter alignment -/

/-- States reachable from a freshly constructed machine by one (successful)
load followed by any sequence of successful ticks, timer ticks and key
presses.  A step whose Rust execution panics produces no state. -/
inductive Reachable : Emu → Prop where
  | loaded : ∀ data s', load Emu.new data = .ok s' → Reachable s'
  | tick_step : ∀ rnd s s', Reachable s → tick rnd s = .ok s' → Reachable s'
  | timers_step : ∀ s, Reachable s → Reachable (tick_timers s)
  | key_step : ∀ s idx b s', Reachable s → keypress s idx b = .ok s' →
      Reachable s'

/-- Claim C9 exactly as stated: every reachable state has an even program
counter. -/
def claimC9Statement : Prop := ∀ s, Reachable s → 2 ∣ s.pc

/-- The machine after loading the two-byte program `12 01` (JMP 0x201). -/
def c9s1 : Emu :=
  { Emu.new with ram := storeBytes Emu.new.ram 0x200 [0x12, 0x01] }

/-- The machine after one tick of that program: `pc = 0x201`, odd. -/
def c9s2 : Emu := { c9s1 with pc := 0x201 }

/-- Claim C9: corrected.  The code never re-aligns the program counter:
the jump `1NNN` writes NNN verbatim, so the loaded program `12 01` reaches
`pc = 0x201` after a single tick. -/
theorem claimC9_counterexample : ¬ claimC9Statement := by
  intro h
  have hload : load Emu.new [0x12, 0x01] = .ok c9s1 := rfl
  have htick : tick 0 c9s1 = .ok c9s2 := rfl
  have hreach : Reachable c9s2 :=
    Reachable.tick_step 0 c9s1 c9s2 (Reachable.loaded _ _ hload) htick
  have hdvd := h c9s2 hreach
  have hpc : c9s2.pc = 513 := rfl
  rw [hpc] at hdvd
  omega

/-- The fetched opcode's jump targets are even: for 1NNN/2NNN the target
NNN, for BNNN the target V[0] + NNN.  (All other instructions move `pc` by
0 or ±2 or restore a pushed address.) -/
def jumpTargetsEven (s : Emu) : Prop :=
  ((fetchedOp s &&& 0xF000) >>> 12 = 1 ∨ (fetchedOp s &&& 0xF000) >>> 12 = 2 →
    2 ∣ fetchedOp s &&& 0xFFF) ∧
  ((fetchedOp s &&& 0xF000) >>> 12 = 0xB →
    2 ∣ s.v_reg 0 + (fetchedOp s &&& 0xFFF))

/-- The alignment invariant: even `pc`, stack pointer within the 16-slot
stack, and every stack slot even. -/
def EmuInv (s : Emu) : Prop :=
  2 ∣ s.pc ∧ s.sp ≤ 16 ∧ ∀ k, k < 16 → 2 ∣ s.stack k

/-- One `execute` step preserves the alignment invariant, provided the
executed opcode's jump targets are even. -/
theorem execute_preserves_inv (rnd : Nat) (t : Emu) (op : Nat) (s' : Emu)
    (hInv : EmuInv t)
    (hJ1 : (op &&& 0xF000) >>> 12 = 1 ∨ (op &&& 0xF000) >>> 12 = 2 →
      2 ∣ op &&& 0xFFF)
    (hJB : (op &&& 0xF000) >>> 12 = 0xB → 2 ∣ t.v_reg 0 + (op &&& 0xFFF))
    (hE : execute rnd t op = .ok s') : EmuInv s' := by
  obtain ⟨hpc, hsp, hstk⟩ := hInv
  delta execute at hE
  by_cases hc1 : (op &&& 0xF000) >>> 12 = 0 ∧ (op &&& 0x0F00) >>> 8 = 0 ∧ (op &&& 0x00F0) >>> 4 = 0 ∧ op &&& 0x000F = 0
  · rw [if_pos hc1] at hE
    repeat' split at hE
    all_goals
      first
        | exact Except.noConfusion hE
        | (injection hE with hEq
           subst hEq
           refine ⟨?_, ?_, ?_⟩
           · first
               | exact hpc
               | exact Nat.dvd_add hpc (by norm_num)
               | exact Nat.dvd_sub' hpc (by norm_num)
               | exact hJ1 (Or.inl (by assumption))
               | exact hJ1 (Or.inr (by assumption))
               | exact hJB (by assumption)
           · exact hsp
           · intro k hk
             exact hstk k hk)
  · rw [if_neg hc1] at hE
    by_cases hc2 : (op &&& 0xF000) >>> 12 = 0 ∧ (op &&& 0x0F00) >>> 8 = 0 ∧ (op &&& 0x00F0) >>> 4 = 0xE ∧ op &&& 0x000F = 0
    · rw [if_pos hc2] at hE
      repeat' split at hE
      all_goals
        first
          | exact Except.noConfusion hE
          | (injection hE with hEq
             subst hEq
             refine ⟨?_, ?_, ?_⟩
             · first
                 | exact hpc
                 | exact Nat.dvd_add hpc (by norm_num)
                 | exact Nat.dvd_sub' hpc (by norm_num)
                 | exact hJ1 (Or.inl (by assumption))
                 | exact hJ1 (Or.inr (by assumption))
                 | exact hJB (by assumption)
             · exact hsp
             · intro k hk
               exact hstk k hk)
    · rw [if_neg hc2] at hE
      by_cases hc3 : (op &&& 0xF000) >>> 12 = 0 ∧ (op &&& 0x0F00) >>> 8 = 0 ∧ (op &&& 0x00F0) >>> 4 = 0xE ∧ op &&& 0x000F = 0xE
      · rw [if_pos hc3] at hE
        simp only [Emu.pop] at hE
        by_cases hsp0 : t.sp = 0
        · rw [if_pos hsp0] at hE
          exact Except.noConfusion hE
        · rw [if_neg hsp0, if_pos (show t.sp - 1 < 16 by omega)] at hE
          replace hE : (Except.ok { t with
              pc := t.stack (t.sp - 1)
              sp := t.sp - 1 } : Except Panic Emu) = Except.ok s' := hE
          injection hE with hEq
          subst hEq
          refine ⟨?_, ?_, ?_⟩
          · show 2 ∣ t.stack (t.sp - 1)
            exact hstk _ (by omega)
          · show t.sp - 1 ≤ 16
            omega
          · intro k hk
            exact hstk k hk
      · rw [if_neg hc3] at hE
        by_cases hc4 : (op &&& 0xF000) >>> 12 = 1
        · rw [if_pos hc4] at hE
          repeat' split at hE
          all_goals
            first
              | exact Except.noConfusion hE
              | (injection hE with hEq
                 subst hEq
                 refine ⟨?_, ?_, ?_⟩
                 · first
                     | exact hpc
                     | exact Nat.dvd_add hpc (by norm_num)
                     | exact Nat.dvd_sub' hpc (by norm_num)
                     | exact hJ1 (Or.inl (by assumption))
                     | exact hJ1 (Or.inr (by assumption))
                     | exact hJB (by assumption)
                 · exact hsp
                 · intro k hk
                   exact hstk k hk)
        · rw [if_neg hc4] at hE
          by_cases hc5 : (op &&& 0xF000) >>> 12 = 2
          · rw [if_pos hc5] at hE
            simp only [Emu.push] at hE
            by_cases hsp16 : t.sp < 16
            · rw [if_pos hsp16] at hE
              replace hE : (Except.ok { t with
                  pc := op &&& 0xFFF
                  sp := t.sp + 1
                  stack := Function.update t.stack t.sp t.pc } : Except Panic Emu) =
                  Except.ok s' := hE
              injection hE with hEq
              subst hEq
              refine ⟨?_, ?_, ?_⟩
              · exact hJ1 (Or.inr (by assumption))
              · show t.sp + 1 ≤ 16
                omega
              · intro k hk
                show 2 ∣ Function.update t.stack t.sp t.pc k
                by_cases hks : k = t.sp
                · subst hks
                  rw [Function.update_same]
                  exact hpc
                · rw [Function.update_noteq hks]
                  exact hstk k hk
            · rw [if_neg hsp16] at hE
              exact Except.noConfusion hE
          · rw [if_neg hc5] at hE
            by_cases hc6 : (op &&& 0xF000) >>> 12 = 3
            · rw [if_pos hc6] at hE
              repeat' split at hE
              all_goals
                first
                  | exact Except.noConfusion hE
                  | (injection hE with hEq
                     subst hEq
                     refine ⟨?_, ?_, ?_⟩
                     · first
                         | exact hpc
                         | exact Nat.dvd_add hpc (by norm_num)
                         | exact Nat.dvd_sub' hpc (by norm_num)
                         | exact hJ1 (Or.inl (by assumption))
                         | exact hJ1 (Or.inr (by assumption))
                         | exact hJB (by assumption)
                     · exact hsp
                     · intro k hk
                       exact hstk k hk)
            · rw [if_neg hc6] at hE
              by_cases hc7 : (op &&& 0xF000) >>> 12 = 4
              · rw [if_pos hc7] at hE
                repeat' split at hE
                all_goals
                  first
                    | exact Except.noConfusion hE
                    | (injection hE with hEq
                       subst hEq
                       refine ⟨?_, ?_, ?_⟩
                       · first
                           | exact hpc
                           | exact Nat.dvd_add hpc (by norm_num)
                           | exact Nat.dvd_sub' hpc (by norm_num)
                           | exact hJ1 (Or.inl (by assumption))
                           | exact hJ1 (Or.inr (by assumption))
                           | exact hJB (by assumption)
                       · exact hsp
                       · intro k hk
                         exact hstk k hk)
              · rw [if_neg hc7] at hE
                by_cases hc8 : (op &&& 0xF000) >>> 12 = 5
                · rw [if_pos hc8] at hE
                  repeat' split at hE
                  all_goals
                    first
                      | exact Except.noConfusion hE
                      | (injection hE with hEq
                         subst hEq
                         refine ⟨?_, ?_, ?_⟩
                         · first
                             | exact hpc
                             | exact Nat.dvd_add hpc (by norm_num)
                             | exact Nat.dvd_sub' hpc (by norm_num)
                             | exact hJ1 (Or.inl (by assumption))
                             | exact hJ1 (Or.inr (by assumption))
                             | exact hJB (by assumption)
                         · exact hsp
                         · intro k hk
                           exact hstk k hk)
                · rw [if_neg hc8] at hE
                  by_cases hc9 : (op &&& 0xF000) >>> 12 = 6
                  · rw [if_pos hc9] at hE
                    repeat' split at hE
                    all_goals
                      first
                        | exact Except.noConfusion hE
                        | (injection hE with hEq
                           subst hEq
                           refine ⟨?_, ?_, ?_⟩
                           · first
                               | exact hpc
                               | exact Nat.dvd_add hpc (by norm_num)
                               | exact Nat.dvd_sub' hpc (by norm_num)
                               | exact hJ1 (Or.inl (by assumption))
                               | exact hJ1 (Or.inr (by assumption))
                               | exact hJB (by assumption)
                           · exact hsp
                           · intro k hk
                             exact hstk k hk)
                  · rw [if_neg hc9] at hE
                    by_cases hc10 : (op &&& 0xF000) >>> 12 = 7
                    · rw [if_pos hc10] at hE
                      repeat' split at hE
                      all_goals
                        first
                          | exact Except.noConfusion hE
                          | (injection hE with hEq
                             subst hEq
                             refine ⟨?_, ?_, ?_⟩
                             · first
                                 | exact hpc
                                 | exact Nat.dvd_add hpc (by norm_num)
                                 | exact Nat.dvd_sub' hpc (by norm_num)
                                 | exact hJ1 (Or.inl (by assumption))
                                 | exact hJ1 (Or.inr (by assumption))
                                 | exact hJB (by assumption)
                             · exact hsp
                             · intro k hk
                               exact hstk k hk)
                    · rw [if_neg hc10] at hE
                      by_cases hc11 : (op &&& 0xF000) >>> 12 = 8 ∧ op &&& 0x000F = 0
                      · rw [if_pos hc11] at hE
                        repeat' split at hE
                        all_goals
                          first
                            | exact Except.noConfusion hE
                            | (injection hE with hEq
                               subst hEq
                               refine ⟨?_, ?_, ?_⟩
                               · first
                                   | exact hpc
                                   | exact Nat.dvd_add hpc (by norm_num)
                                   | exact Nat.dvd_sub' hpc (by norm_num)
                                   | exact hJ1 (Or.inl (by assumption))
                                   | exact hJ1 (Or.inr (by assumption))
                                   | exact hJB (by assumption)
                               · exact hsp
                               · intro k hk
                                 exact hstk k hk)
                      · rw [if_neg hc11] at hE
                        by_cases hc12 : (op &&& 0xF000) >>> 12 = 8 ∧ op &&& 0x000F = 1
                        · rw [if_pos hc12] at hE
                          repeat' split at hE
                          all_goals
                            first
                              | exact Except.noConfusion hE
                              | (injection hE with hEq
                                 subst hEq
                                 refine ⟨?_, ?_, ?_⟩
                                 · first
                                     | exact hpc
                                     | exact Nat.dvd_add hpc (by norm_num)
                                     | exact Nat.dvd_sub' hpc (by norm_num)
                                     | exact hJ1 (Or.inl (by assumption))
                                     | exact hJ1 (Or.inr (by assumption))
                                     | exact hJB (by assumption)
                                 · exact hsp
                                 · intro k hk
                                   exact hstk k hk)
                        · rw [if_neg hc12] at hE
                          by_cases hc13 : (op &&& 0xF000) >>> 12 = 8 ∧ op &&& 0x000F = 2
                          · rw [if_pos hc13] at hE
                            repeat' split at hE
                            all_goals
                              first
                                | exact Except.noConfusion hE
                                | (injection hE with hEq
                                   subst hEq
                                   refine ⟨?_, ?_, ?_⟩
                                   · first
                                       | exact hpc
                                       | exact Nat.dvd_add hpc (by norm_num)
                                       | exact Nat.dvd_sub' hpc (by norm_num)
                                       | exact hJ1 (Or.inl (by assumption))
                                       | exact hJ1 (Or.inr (by assumption))
                                       | exact hJB (by assumption)
                                   · exact hsp
                                   · intro k hk
                                     exact hstk k hk)
                          · rw [if_neg hc13] at hE
                            by_cases hc14 : (op &&& 0xF000) >>> 12 = 8 ∧ op &&& 0x000F = 3
                            · rw [if_pos hc14] at hE
                              repeat' split at hE
                              all_goals
                                first
                                  | exact Except.noConfusion hE
                                  | (injection hE with hEq
                                     subst hEq
                                     refine ⟨?_, ?_, ?_⟩
                                     · first
                                         | exact hpc
                                         | exact Nat.dvd_add hpc (by norm_num)
                                         | exact Nat.dvd_sub' hpc (by norm_num)
                                         | exact hJ1 (Or.inl (by assumption))
                                         | exact hJ1 (Or.inr (by assumption))
                                         | exact hJB (by assumption)
                                     · exact hsp
                                     · intro k hk
                                       exact hstk k hk)
                            · rw [if_neg hc14] at hE
                              by_cases hc15 : (op &&& 0xF000) >>> 12 = 8 ∧ op &&& 0x000F = 4
                              · rw [if_pos hc15] at hE
                                repeat' split at hE
                                all_goals
                                  first
                                    | exact Except.noConfusion hE
                                    | (injection hE with hEq
                                       subst hEq
                                       refine ⟨?_, ?_, ?_⟩
                                       · first
                                           | exact hpc
                                           | exact Nat.dvd_add hpc (by norm_num)
                                           | exact Nat.dvd_sub' hpc (by norm_num)
                                           | exact hJ1 (Or.inl (by assumption))
                                           | exact hJ1 (Or.inr (by assumption))
                                           | exact hJB (by assumption)
                                       · exact hsp
                                       · intro k hk
                                         exact hstk k hk)
                              · rw [if_neg hc15] at hE
                                by_cases hc16 : (op &&& 0xF000) >>> 12 = 8 ∧ op &&& 0x000F = 5
                                · rw [if_pos hc16] at hE
                                  repeat' split at hE
                                  all_goals
                                    first
                                      | exact Except.noConfusion hE
                                      | (injection hE with hEq
                                         subst hEq
                                         refine ⟨?_, ?_, ?_⟩
                                         · first
                                             | exact hpc
                                             | exact Nat.dvd_add hpc (by norm_num)
                                             | exact Nat.dvd_sub' hpc (by norm_num)
                                             | exact hJ1 (Or.inl (by assumption))
                                             | exact hJ1 (Or.inr (by assumption))
                                             | exact hJB (by assumption)
                                         · exact hsp
                                         · intro k hk
                                           exact hstk k hk)
                                · rw [if_neg hc16] at hE
                                  by_cases hc17 : (op &&& 0xF000) >>> 12 = 8 ∧ op &&& 0x000F = 6
                                  · rw [if_pos hc17] at hE
                                    repeat' split at hE
                                    all_goals
                                      first
                                        | exact Except.noConfusion hE
                                        | (injection hE with hEq
                                           subst hEq
                                           refine ⟨?_, ?_, ?_⟩
                                           · first
                                               | exact hpc
                                               | exact Nat.dvd_add hpc (by norm_num)
                                               | exact Nat.dvd_sub' hpc (by norm_num)
                                               | exact hJ1 (Or.inl (by assumption))
                                               | exact hJ1 (Or.inr (by assumption))
                                               | exact hJB (by assumption)
                                           · exact hsp
                                           · intro k hk
                                             exact hstk k hk)
                                  · rw [if_neg hc17] at hE
                                    by_cases hc18 : (op &&& 0xF000) >>> 12 = 8 ∧ op &&& 0x000F = 7
                                    · rw [if_pos hc18] at hE
                                      repeat' split at hE
                                      all_goals
                                        first
                                          | exact Except.noConfusion hE
                                          | (injection hE with hEq
                                             subst hEq
                                             refine ⟨?_, ?_, ?_⟩
                                             · first
                                                 | exact hpc
                                                 | exact Nat.dvd_add hpc (by norm_num)
                                                 | exact Nat.dvd_sub' hpc (by norm_num)
                                                 | exact hJ1 (Or.inl (by assumption))
                                                 | exact hJ1 (Or.inr (by assumption))
                                                 | exact hJB (by assumption)
                                             · exact hsp
                                             · intro k hk
                                               exact hstk k hk)
                                    · rw [if_neg hc18] at hE
                                      by_cases hc19 : (op &&& 0xF000) >>> 12 = 8 ∧ op &&& 0x000F = 0xE
                                      · rw [if_pos hc19] at hE
                                        repeat' split at hE
                                        all_goals
                                          first
                                            | exact Except.noConfusion hE
                                            | (injection hE with hEq
                                               subst hEq
                                               refine ⟨?_, ?_, ?_⟩
                                               · first
                                                   | exact hpc
                                                   | exact Nat.dvd_add hpc (by norm_num)
                                                   | exact Nat.dvd_sub' hpc (by norm_num)
                                                   | exact hJ1 (Or.inl (by assumption))
                                                   | exact hJ1 (Or.inr (by assumption))
                                                   | exact hJB (by assumption)
                                               · exact hsp
                                               · intro k hk
                                                 exact hstk k hk)
                                      · rw [if_neg hc19] at hE
                                        by_cases hc20 : (op &&& 0xF000) >>> 12 = 9 ∧ op &&& 0x000F = 0
                                        · rw [if_pos hc20] at hE
                                          repeat' split at hE
                                          all_goals
                                            first
                                              | exact Except.noConfusion hE
                                              | (injection hE with hEq
                                                 subst hEq
                                                 refine ⟨?_, ?_, ?_⟩
                                                 · first
                                                     | exact hpc
                                                     | exact Nat.dvd_add hpc (by norm_num)
                                                     | exact Nat.dvd_sub' hpc (by norm_num)
                                                     | exact hJ1 (Or.inl (by assumption))
                                                     | exact hJ1 (Or.inr (by assumption))
                                                     | exact hJB (by assumption)
                                                 · exact hsp
                                                 · intro k hk
                                                   exact hstk k hk)
                                        · rw [if_neg hc20] at hE
                                          by_cases hc21 : (op &&& 0xF000) >>> 12 = 0xA
                                          · rw [if_pos hc21] at hE
                                            repeat' split at hE
                                            all_goals
                                              first
                                                | exact Except.noConfusion hE
                                                | (injection hE with hEq
                                                   subst hEq
                                                   refine ⟨?_, ?_, ?_⟩
                                                   · first
                                                       | exact hpc
                                                       | exact Nat.dvd_add hpc (by norm_num)
                                                       | exact Nat.dvd_sub' hpc (by norm_num)
                                                       | exact hJ1 (Or.inl (by assumption))
                                                       | exact hJ1 (Or.inr (by assumption))
                                                       | exact hJB (by assumption)
                                                   · exact hsp
                                                   · intro k hk
                                                     exact hstk k hk)
                                          · rw [if_neg hc21] at hE
                                            by_cases hc22 : (op &&& 0xF000) >>> 12 = 0xB
                                            · rw [if_pos hc22] at hE
                                              repeat' split at hE
                                              all_goals
                                                first
                                                  | exact Except.noConfusion hE
                                                  | (injection hE with hEq
                                                     subst hEq
                                                     refine ⟨?_, ?_, ?_⟩
                                                     · first
                                                         | exact hpc
                                                         | exact Nat.dvd_add hpc (by norm_num)
                                                         | exact Nat.dvd_sub' hpc (by norm_num)
                                                         | exact hJ1 (Or.inl (by assumption))
                                                         | exact hJ1 (Or.inr (by assumption))
                                                         | exact hJB (by assumption)
                                                     · exact hsp
                                                     · intro k hk
                                                       exact hstk k hk)
                                            · rw [if_neg hc22] at hE
                                              by_cases hc23 : (op &&& 0xF000) >>> 12 = 0xC
                                              · rw [if_pos hc23] at hE
                                                repeat' split at hE
                                                all_goals
                                                  first
                                                    | exact Except.noConfusion hE
                                                    | (injection hE with hEq
                                                       subst hEq
                                                       refine ⟨?_, ?_, ?_⟩
                                                       · first
                                                           | exact hpc
                                                           | exact Nat.dvd_add hpc (by norm_num)
                                                           | exact Nat.dvd_sub' hpc (by norm_num)
                                                           | exact hJ1 (Or.inl (by assumption))
                                                           | exact hJ1 (Or.inr (by assumption))
                                                           | exact hJB (by assumption)
                                                       · exact hsp
                                                       · intro k hk
                                                         exact hstk k hk)
                                              · rw [if_neg hc23] at hE
                                                by_cases hc24 : (op &&& 0xF000) >>> 12 = 0xD
                                                · rw [if_pos hc24] at hE
                                                  repeat' split at hE
                                                  all_goals
                                                    first
                                                      | exact Except.noConfusion hE
                                                      | (injection hE with hEq
                                                         subst hEq
                                                         refine ⟨?_, ?_, ?_⟩
                                                         · first
                                                             | exact hpc
                                                             | exact Nat.dvd_add hpc (by norm_num)
                                                             | exact Nat.dvd_sub' hpc (by norm_num)
                                                             | exact hJ1 (Or.inl (by assumption))
                                                             | exact hJ1 (Or.inr (by assumption))
                                                             | exact hJB (by assumption)
                                                         · exact hsp
                                                         · intro k hk
                                                           exact hstk k hk)
                                                · rw [if_neg hc24] at hE
                                                  by_cases hc25 : (op &&& 0xF000) >>> 12 = 0xE ∧ (op &&& 0x00F0) >>> 4 = 9 ∧ op &&& 0x000F = 0xE
                                                  · rw [if_pos hc25] at hE
                                                    repeat' split at hE
                                                    all_goals
                                                      first
                                                        | exact Except.noConfusion hE
                                                        | (injection hE with hEq
                                                           subst hEq
                                                           refine ⟨?_, ?_, ?_⟩
                                                           · first
                                                               | exact hpc
                                                               | exact Nat.dvd_add hpc (by norm_num)
                                                               | exact Nat.dvd_sub' hpc (by norm_num)
                                                               | exact hJ1 (Or.inl (by assumption))
                                                               | exact hJ1 (Or.inr (by assumption))
                                                               | exact hJB (by assumption)
                                                           · exact hsp
                                                           · intro k hk
                                                             exact hstk k hk)
                                                  · rw [if_neg hc25] at hE
                                                    by_cases hc26 : (op &&& 0xF000) >>> 12 = 0xE ∧ (op &&& 0x00F0) >>> 4 = 0xA ∧ op &&& 0x000F = 1
                                                    · rw [if_pos hc26] at hE
                                                      repeat' split at hE
                                                      all_goals
                                                        first
                                                          | exact Except.noConfusion hE
                                                          | (injection hE with hEq
                                                             subst hEq
                                                             refine ⟨?_, ?_, ?_⟩
                                                             · first
                                                                 | exact hpc
                                                                 | exact Nat.dvd_add hpc (by norm_num)
                                                                 | exact Nat.dvd_sub' hpc (by norm_num)
                                                                 | exact hJ1 (Or.inl (by assumption))
                                                                 | exact hJ1 (Or.inr (by assumption))
                                                                 | exact hJB (by assumption)
                                                             · exact hsp
                                                             · intro k hk
                                                               exact hstk k hk)
                                                    · rw [if_neg hc26] at hE
                                                      by_cases hc27 : (op &&& 0xF000) >>> 12 = 0xF ∧ (op &&& 0x00F0) >>> 4 = 0 ∧ op &&& 0x000F = 7
                                                      · rw [if_pos hc27] at hE
                                                        repeat' split at hE
                                                        all_goals
                                                          first
                                                            | exact Except.noConfusion hE
                                                            | (injection hE with hEq
                                                               subst hEq
                                                               refine ⟨?_, ?_, ?_⟩
                                                               · first
                                                                   | exact hpc
                                                                   | exact Nat.dvd_add hpc (by norm_num)
                                                                   | exact Nat.dvd_sub' hpc (by norm_num)
                                                                   | exact hJ1 (Or.inl (by assumption))
                                                                   | exact hJ1 (Or.inr (by assumption))
                                                                   | exact hJB (by assumption)
                                                               · exact hsp
                                                               · intro k hk
                                                                 exact hstk k hk)
                                                      · rw [if_neg hc27] at hE
                                                        by_cases hc28 : (op &&& 0xF000) >>> 12 = 0xF ∧ (op &&& 0x00F0) >>> 4 = 0 ∧ op &&& 0x000F = 0xA
                                                        · rw [if_pos hc28] at hE
                                                          repeat' split at hE
                                                          all_goals
                                                            first
                                                              | exact Except.noConfusion hE
                                                              | (injection hE with hEq
                                                                 subst hEq
                                                                 refine ⟨?_, ?_, ?_⟩
                                                                 · first
                                                                     | exact hpc
                                                                     | exact Nat.dvd_add hpc (by norm_num)
                                                                     | exact Nat.dvd_sub' hpc (by norm_num)
                                                                     | exact hJ1 (Or.inl (by assumption))
                                                                     | exact hJ1 (Or.inr (by assumption))
                                                                     | exact hJB (by assumption)
                                                                 · exact hsp
                                                                 · intro k hk
                                                                   exact hstk k hk)
                                                        · rw [if_neg hc28] at hE
                                                          by_cases hc29 : (op &&& 0xF000) >>> 12 = 0xF ∧ (op &&& 0x00F0) >>> 4 = 1 ∧ op &&& 0x000F = 5
                                                          · rw [if_pos hc29] at hE
                                                            repeat' split at hE
                                                            all_goals
                                                              first
                                                                | exact Except.noConfusion hE
                                                                | (injection hE with hEq
                                                                   subst hEq
                                                                   refine ⟨?_, ?_, ?_⟩
                                                                   · first
                                                                       | exact hpc
                                                                       | exact Nat.dvd_add hpc (by norm_num)
                                                                       | exact Nat.dvd_sub' hpc (by norm_num)
                                                                       | exact hJ1 (Or.inl (by assumption))
                                                                       | exact hJ1 (Or.inr (by assumption))
                                                                       | exact hJB (by assumption)
                                                                   · exact hsp
                                                                   · intro k hk
                                                                     exact hstk k hk)
                                                          · rw [if_neg hc29] at hE
                                                            by_cases hc30 : (op &&& 0xF000) >>> 12 = 0xF ∧ (op &&& 0x00F0) >>> 4 = 1 ∧ op &&& 0x000F = 8
                                                            · rw [if_pos hc30] at hE
                                                              repeat' split at hE
                                                              all_goals
                                                                first
                                                                  | exact Except.noConfusion hE
                                                                  | (injection hE with hEq
                                                                     subst hEq
                                                                     refine ⟨?_, ?_, ?_⟩
                                                                     · first
                                                                         | exact hpc
                                                                         | exact Nat.dvd_add hpc (by norm_num)
                                                                         | exact Nat.dvd_sub' hpc (by norm_num)
                                                                         | exact hJ1 (Or.inl (by assumption))
                                                                         | exact hJ1 (Or.inr (by assumption))
                                                                         | exact hJB (by assumption)
                                                                     · exact hsp
                                                                     · intro k hk
                                                                       exact hstk k hk)
                                                            · rw [if_neg hc30] at hE
                                                              by_cases hc31 : (op &&& 0xF000) >>> 12 = 0xF ∧ (op &&& 0x00F0) >>> 4 = 1 ∧ op &&& 0x000F = 0xE
                                                              · rw [if_pos hc31] at hE
                                                                repeat' split at hE
                                                                all_goals
                                                                  first
                                                                    | exact Except.noConfusion hE
                                                                    | (injection hE with hEq
                                                                       subst hEq
                                                                       refine ⟨?_, ?_, ?_⟩
                                                                       · first
                                                                           | exact hpc
                                                                           | exact Nat.dvd_add hpc (by norm_num)
                                                                           | exact Nat.dvd_sub' hpc (by norm_num)
                                                                           | exact hJ1 (Or.inl (by assumption))
                                                                           | exact hJ1 (Or.inr (by assumption))
                                                                           | exact hJB (by assumption)
                                                                       · exact hsp
                                                                       · intro k hk
                                                                         exact hstk k hk)
                                                              · rw [if_neg hc31] at hE
                                                                by_cases hc32 : (op &&& 0xF000) >>> 12 = 0xF ∧ (op &&& 0x00F0) >>> 4 = 2 ∧ op &&& 0x000F = 9
                                                                · rw [if_pos hc32] at hE
                                                                  repeat' split at hE
                                                                  all_goals
                                                                    first
                                                                      | exact Except.noConfusion hE
                                                                      | (injection hE with hEq
                                                                         subst hEq
                                                                         refine ⟨?_, ?_, ?_⟩
                                                                         · first
                                                                             | exact hpc
                                                                             | exact Nat.dvd_add hpc (by norm_num)
                                                                             | exact Nat.dvd_sub' hpc (by norm_num)
                                                                             | exact hJ1 (Or.inl (by assumption))
                                                                             | exact hJ1 (Or.inr (by assumption))
                                                                             | exact hJB (by assumption)
                                                                         · exact hsp
                                                                         · intro k hk
                                                                           exact hstk k hk)
                                                                · rw [if_neg hc32] at hE
                                                                  by_cases hc33 : (op &&& 0xF000) >>> 12 = 0xF ∧ (op &&& 0x00F0) >>> 4 = 3 ∧ op &&& 0x000F = 3
                                                                  · rw [if_pos hc33] at hE
                                                                    repeat' split at hE
                                                                    all_goals
                                                                      first
                                                                        | exact Except.noConfusion hE
                                                                        | (injection hE with hEq
                                                                           subst hEq
                                                                           refine ⟨?_, ?_, ?_⟩
                                                                           · first
                                                                               | exact hpc
                                                                               | exact Nat.dvd_add hpc (by norm_num)
                                                                               | exact Nat.dvd_sub' hpc (by norm_num)
                                                                               | exact hJ1 (Or.inl (by assumption))
                                                                               | exact hJ1 (Or.inr (by assumption))
                                                                               | exact hJB (by assumption)
                                                                           · exact hsp
                                                                           · intro k hk
                                                                             exact hstk k hk)
                                                                  · rw [if_neg hc33] at hE
                                                                    by_cases hc34 : (op &&& 0xF000) >>> 12 = 0xF ∧ (op &&& 0x00F0) >>> 4 = 5 ∧ op &&& 0x000F = 5
                                                                    · rw [if_pos hc34] at hE
                                                                      repeat' split at hE
                                                                      all_goals
                                                                        first
                                                                          | exact Except.noConfusion hE
                                                                          | (injection hE with hEq
                                                                             subst hEq
                                                                             refine ⟨?_, ?_, ?_⟩
                                                                             · first
                                                                                 | exact hpc
                                                                                 | exact Nat.dvd_add hpc (by norm_num)
                                                                                 | exact Nat.dvd_sub' hpc (by norm_num)
                                                                                 | exact hJ1 (Or.inl (by assumption))
                                                                                 | exact hJ1 (Or.inr (by assumption))
                                                                                 | exact hJB (by assumption)
                                                                             · exact hsp
                                                                             · intro k hk
                                                                               exact hstk k hk)
                                                                    · rw [if_neg hc34] at hE
                                                                      by_cases hc35 : (op &&& 0xF000) >>> 12 = 0xF ∧ (op &&& 0x00F0) >>> 4 = 6 ∧ op &&& 0x000F = 5
                                                                      · rw [if_pos hc35] at hE
                                                                        repeat' split at hE
                                                                        all_goals
                                                                          first
                                                                            | exact Except.noConfusion hE
                                                                            | (injection hE with hEq
                                                                               subst hEq
                                                                               refine ⟨?_, ?_, ?_⟩
                                                                               · first
                                                                                   | exact hpc
                                                                                   | exact Nat.dvd_add hpc (by norm_num)
                                                                                   | exact Nat.dvd_sub' hpc (by norm_num)
                                                                                   | exact hJ1 (Or.inl (by assumption))
                                                                                   | exact hJ1 (Or.inr (by assumption))
                                                                                   | exact hJB (by assumption)
                                                                               · exact hsp
                                                                               · intro k hk
                                                                                 exact hstk k hk)
                                                                      · rw [if_neg hc35] at hE
                                                                        exact Except.noConfusion hE

/-- One successful `tick` preserves the alignment invariant when the
fetched opcode's jump targets are even. -/
theorem tick_preserves_inv (rnd : Nat) (s s' : Emu) (hInv : EmuInv s)
    (hJ : jumpTargetsEven s) (hT : tick rnd s = .ok s') : EmuInv s' := by
  simp only [tick, Emu.fetch] at hT
  by_cases h0 : s.pc < 4096
  · by_cases h1 : s.pc + 1 < 4096
    · rw [if_pos h0, if_pos h1] at hT
      replace hT : execute rnd { s with pc := s.pc + 2 } (fetchedOp s) =
          Except.ok s' := hT
      exact execute_preserves_inv rnd { s with pc := s.pc + 2 } (fetchedOp s)
        s' ⟨Nat.dvd_add hInv.1 (by norm_num), hInv.2.1, hInv.2.2⟩
        hJ.1 hJ.2 hT
    · rw [if_pos h0, if_neg h1] at hT
      exact Except.noConfusion hT
  · rw [if_neg h0] at hT
    exact Except.noConfusion hT

/-- `tick_timers` touches only the two timers. -/
theorem tick_timers_frame (s : Emu) :
    (tick_timers s).pc = s.pc ∧ (tick_timers s).sp = s.sp ∧
    (tick_timers s).stack = s.stack := by
  simp only [tick_timers]
  split <;> split <;> exact ⟨rfl, rfl, rfl⟩

/-- A successful `keypress` touches only the keypad. -/
theorem keypress_preserves_inv (s : Emu) (idx : Nat) (b : Bool) (s' : Emu)
    (hInv : EmuInv s) (hK : keypress s idx b = .ok s') : EmuInv s' := by
  simp only [keypress] at hK
  by_cases h : idx < 16
  · rw [if_pos h] at hK
    injection hK with hEq
    subst hEq
    exact ⟨hInv.1, hInv.2.1, hInv.2.2⟩
  · rw [if_neg h] at hK
    exact Except.noConfusion hK

/-- Like `Reachable`, but every tick executes an opcode whose jump targets
are even-aligned. -/
inductive ReachableEven : Emu → Prop where
  | loaded : ∀ data s', load Emu.new data = .ok s' → ReachableEven s'
  | tick_step : ∀ rnd s s', ReachableEven s → jumpTargetsEven s →
      tick rnd s = .ok s' → ReachableEven s'
  | timers_step : ∀ s, ReachableEven s → ReachableEven (tick_timers s)
  | key_step : ∀ s idx b s', ReachableEven s → keypress s idx b = .ok s' →
      ReachableEven s'

/-- The alignment invariant holds in every state reachable with
even-aligned jump targets. -/
theorem reachableEven_inv : ∀ s, ReachableEven s → EmuInv s := by
  intro s h
  induction h with
  | loaded data s' hload =>
    simp only [load] at hload
    by_cases hfit : 0x200 + data.length ≤ 4096
    · rw [if_pos hfit] at hload
      injection hload with hEq
      subst hEq
      refine ⟨?_, ?_, ?_⟩
      · show (2 : Nat) ∣ 512
        norm_num
      · show (0 : Nat) ≤ 16
        norm_num
      · intro k hk
        exact Nat.dvd_zero 2
    · rw [if_neg hfit] at hload
      exact Except.noConfusion hload
  | tick_step rnd s s' _ hJ hT ih => exact tick_preserves_inv rnd s s' ih hJ hT
  | timers_step s _ ih =>
    obtain ⟨h1, h2, h3⟩ := tick_timers_frame s
    exact ⟨h1 ▸ ih.1, h2 ▸ ih.2.1, h3 ▸ ih.2.2⟩
  | key_step s idx b s' _ hK ih => exact keypress_preserves_inv s idx b s' ih hK

/-- Claim C9, amended: in every state reachable from a freshly constructed
machine by one load and any sequence of ticks, timer ticks and key presses
in which each executed 1NNN/2NNN has an even NNN and each executed BNNN has
even V[0] + NNN, the program counter is even.  (Without that proviso the
claim fails: see the counterexample, a ROM jumping to 0x201.) -/
theorem pc_even_invariant : ∀ s, ReachableEven s → 2 ∣ s.pc :=
  fun s h => (reachableEven_inv s h).1

/-- Witness for `pc_even_invariant` at the machine holding the empty
program. -/
theorem pc_even_invariant_witness :
    ReachableEven { Emu.new with
      ram := storeBytes Emu.new.ram 0x200 ([] : List Nat) } ∧
    2 ∣ ({ Emu.new with
      ram := storeBytes Emu.new.ram 0x200 ([] : List Nat) } : Emu).pc :=
  ⟨ReachableEven.loaded [] _ rfl,
   pc_even_invariant _ (ReachableEven.loaded [] _ rfl)⟩
